import Mathlib

/-!
# InvestWise ledger core — shallow embedding and verification

A shallow embedding of `src/controllers/financeController.js` (the "Ledger
Engine" of spec.md).  JS numbers are modelled as exact rationals `ℚ`;
MongoDB collections are lists keyed by a `Nat` id; a MongoDB session that
commits or aborts atomically is modelled by every operation returning
`Except String (State × _)`: on `.error` no write escapes (the caller keeps
the pre-state), exactly like `session.abortTransaction()`.

Append-only side tables that no claim observes (`AuditLog`,
`DeletedRecord`) and identity fields (`authorizedBy`, `createdBy`,
`updatedBy`, `handlingOfficer`) are not part of the state; the
`recalculateAllStats` collaborator is external to the core (spec §6).
-/

namespace InvestWise

/-- `Fund` document (src/models/Fund.js): the fields the ledger core reads
or writes.  `ftype` is the schema's `type` (e.g. `"PROJECT"`). -/
structure Fund where
  id : Nat
  name : String
  ftype : String
  balance : ℚ
  reconciliationStatus : String
  lastReconciledAt : Option Nat
deriving Repr, DecidableEq

/-- `Member` document (src/models/Member.js): ledger-relevant fields. -/
structure Member where
  id : Nat
  name : String
  status : String
  shares : ℚ
  totalContributed : ℚ
deriving Repr, DecidableEq

/-- One entry of a project's inline `updates` array (src/unnamed/part_003,
`updateSchema`). -/
structure ProjectUpdate where
  utype : String
  amount : ℚ
  description : String
  balanceBefore : ℚ
  balanceAfter : ℚ
deriving Repr, DecidableEq

/-- `Project` document (src/unnamed/part_003): ledger-relevant fields. -/
structure Project where
  id : Nat
  title : String
  linkedFundId : Option Nat
  currentFundBalance : ℚ
  totalEarnings : ℚ
  totalExpenses : ℚ
  updates : List ProjectUpdate
deriving Repr, DecidableEq

/-- `Transaction` document (src/models/Transaction.js): ledger-relevant
fields.  `ttype` is the schema's `type`. -/
structure Transaction where
  id : Nat
  ttype : String
  amount : ℚ
  description : String
  status : String
  memberId : Option Nat
  fundId : Option Nat
  projectId : Option Nat
  balanceBefore : ℚ
  balanceAfter : ℚ
  referenceNumber : Option String
deriving Repr, DecidableEq

/-- The persistent state shared by all ledger operations.  `nextTxId`
models MongoDB's generation of fresh `_id`s at insert time. -/
structure State where
  funds : List Fund
  members : List Member
  projects : List Project
  transactions : List Transaction
  nextTxId : Nat
deriving Repr, DecidableEq

/-! ## Generic keyed-collection helpers (`findById` / `save`) -/

/-- `Model.findById(k)`: first document whose key is `k`. -/
def findBy {α : Type} (key : α → Nat) (k : Nat) (l : List α) : Option α :=
  l.find? (fun x => key x == k)

/-- `doc.save()`: replace every document sharing `x`'s key with `x`. -/
def updBy {α : Type} (key : α → Nat) (x : α) (l : List α) : List α :=
  l.map (fun g => if key g == key x then x else g)

theorem findBy_key {α : Type} (key : α → Nat) (k : Nat) (l : List α) (x : α)
    (h : findBy key k l = some x) : key x = k := by
  have h' : List.find? (fun z => key z == k) l = some x := h
  have h2 : (key x == k) = true :=
    @List.find?_some α (fun z => key z == k) x l h'
  exact eq_of_beq h2

theorem updBy_cons {α : Type} (key : α → Nat) (x a : α) (t : List α) :
    updBy key x (a :: t) = (if key a == key x then x else a) :: updBy key x t :=
  rfl

theorem findBy_cons {α : Type} (key : α → Nat) (k : Nat) (a : α) (t : List α) :
    findBy key k (a :: t) = if key a = k then some a else findBy key k t := by
  by_cases h : key a = k
  · rw [if_pos h]
    exact List.find?_cons_of_pos _ (by simp [h])
  · rw [if_neg h]
    exact List.find?_cons_of_neg _ (by simp [h])

theorem findBy_updBy_self {α : Type} (key : α → Nat) (k : Nat) (x y : α)
    (l : List α) (h : findBy key k l = some y) (hk : key x = k) :
    findBy key k (updBy key x l) = some x := by
  induction l with
  | nil => simp [findBy] at h
  | cons a t ih =>
    by_cases ha : key a = k
    · have hax : (key a == key x) = true := by simp [ha, hk]
      rw [updBy_cons, if_pos hax, findBy_cons, if_pos hk]
    · have hax : ¬((key a == key x) = true) := by simp [hk, ha]
      rw [findBy_cons, if_neg ha] at h
      rw [updBy_cons, if_neg hax, findBy_cons, if_neg ha]
      exact ih h

theorem findBy_updBy_ne {α : Type} (key : α → Nat) (k : Nat) (x : α)
    (l : List α) (hk : key x ≠ k) :
    findBy key k (updBy key x l) = findBy key k l := by
  induction l with
  | nil => rfl
  | cons a t ih =>
    by_cases hax : key a = key x
    · have h1 : (key a == key x) = true := by simp [hax]
      have hak : key a ≠ k := fun hc => hk (hax ▸ hc)
      rw [updBy_cons, if_pos h1, findBy_cons, findBy_cons, if_neg hk,
        if_neg hak]
      exact ih
    · have h1 : ¬((key a == key x) = true) := by simp [hax]
      rw [updBy_cons, if_neg h1, findBy_cons, findBy_cons]
      by_cases hak : key a = k
      · rw [if_pos hak, if_pos hak]
      · rw [if_neg hak, if_neg hak, ih]

/-! ## State accessors and mutators -/

def findFund (s : State) (k : Nat) : Option Fund := findBy Fund.id k s.funds

def findMember (s : State) (k : Nat) : Option Member := findBy Member.id k s.members

def findProject (s : State) (k : Nat) : Option Project := findBy Project.id k s.projects

def findTx (s : State) (k : Nat) : Option Transaction := findBy Transaction.id k s.transactions

def updateFund (s : State) (f : Fund) : State :=
  { s with funds := updBy Fund.id f s.funds }

def updateMember (s : State) (m : Member) : State :=
  { s with members := updBy Member.id m s.members }

def updateProject (s : State) (p : Project) : State :=
  { s with projects := updBy Project.id p s.projects }

def updateTx (s : State) (t : Transaction) : State :=
  { s with transactions := updBy Transaction.id t s.transactions }

/-- `Transaction.create`: insert one document, `_id` freshly generated. -/
def pushTx (s : State) (t : Transaction) : State :=
  { s with transactions := s.transactions ++ [t], nextTxId := s.nextTxId + 1 }

/-- `Transaction.insertMany`: insert a batch, `_id`s freshly generated. -/
def insertMany (s : State) (txs : List Transaction) : State :=
  { s with
    transactions :=
      s.transactions ++ txs.enum.map (fun p => { p.2 with id := s.nextTxId + p.1 }),
    nextTxId := s.nextTxId + txs.length }

/-- JS `status === 'Success' || status === 'Completed'`. -/
def isApplied (st : String) : Bool := st == "Success" || st == "Completed"

/-- The same test on a possibly-absent request field (`undefined` is
neither `'Success'` nor `'Completed'`). -/
def optApplied (st : Option String) : Bool :=
  match st with
  | some t => isApplied t
  | none => false

/-- JS `haystack.includes(needle)`. -/
def strIncludes (hay needle : String) : Bool :=
  decide (needle.toList <:+: hay.toList)

/-! ## Operation: addDeposit (financeController.js lines 161–228) -/

/-- `addDeposit`.  Mirrors the source line by line: amount must be
positive; fund and member must exist; the Transaction is stored with
status `status || 'Completed'`; balances are touched only when the *raw*
request status is `'Success'` or `'Completed'` (so an absent status is
stored as `'Completed'` yet applies no impact, exactly as in the source).
Shares are never changed ("member.shares is a static property"). -/
def addDeposit (s : State) (memberId : Nat) (amount : ℚ) (fundId : Nat)
    (description : String) (status : Option String) :
    Except String (State × Transaction) :=
  if amount ≤ 0 then .error "Invalid deposit amount" else
  match findFund s fundId, findMember s memberId with
  | some fund, some member =>
    let balanceBefore := fund.balance
    let tx : Transaction :=
      { id := s.nextTxId
        ttype := "Deposit"
        amount := amount
        description := description
        status := status.getD "Completed"
        memberId := some memberId
        fundId := some fundId
        projectId := none
        balanceBefore := balanceBefore
        balanceAfter :=
          if optApplied status then balanceBefore + amount else balanceBefore
        referenceNumber := none }
    let s1 := pushTx s tx
    let s2 :=
      if optApplied status then
        updateMember
          (updateFund s1 { fund with balance := fund.balance + amount })
          { member with totalContributed := member.totalContributed + amount }
      else s1
    .ok (s2, tx)
  | _, _ => .error "Fund or Member not found"

/-! ## Operation: approveDeposit (financeController.js lines 345–394) -/

/-- `approveDeposit`.  Gates only on status (`'Success'`/`'Completed'` →
"already approved"), never on type; credits the fund and the member's
`totalContributed` by the transaction's amount and sets the status to
`'Completed'`.  The stored `balanceBefore`/`balanceAfter` snapshots are
not touched (the source updates only `status` and identity fields). -/
def approveDeposit (s : State) (txId : Nat) :
    Except String (State × Transaction) :=
  match findTx s txId with
  | none => .error "Transaction not found"
  | some tx =>
    if isApplied tx.status then .error "Transaction already approved" else
    match tx.fundId.bind (findFund s), tx.memberId.bind (findMember s) with
    | some fund, some member =>
      let s1 := updateFund s { fund with balance := fund.balance + tx.amount }
      let s2 := updateMember s1
        { member with totalContributed := member.totalContributed + tx.amount }
      let tx' := { tx with status := "Completed" }
      .ok (updateTx s2 tx', tx')
    | none, _ => .error "Target Fund not found"
    | _, none => .error "Member not found"

/-! ## Operation: addExpense (financeController.js lines 398–490) -/

/-- `addExpense`.  Snapshot base is the project balance when a project is
referenced and found, else the fund balance; a `'PROJECT'`-type fund is
rejected for non-project expenses; the balance check precedes any write;
project impact (balance, `totalExpenses`, inline update, description
tagging) precedes the fund debit.  A referenced but missing project makes
the source dereference `null` and abort. -/
def addExpense (s : State) (amount : ℚ) (fundId : Nat) (description : String)
    (category : String) (projectId : Option Nat) (memberId : Option Nat)
    (date : Nat) : Except String (State × Transaction) :=
  match findFund s fundId with
  | none => .error "Source Fund not found"
  | some fund =>
    let balanceBefore :=
      match projectId.bind (findProject s) with
      | some p => p.currentFundBalance
      | none => fund.balance
    if projectId.isNone && fund.ftype == "PROJECT" then
      .error "Project-specific funds cannot be used for general expenses"
    else if fund.balance < amount then
      .error ("Insufficient balance in " ++ fund.name)
    else
      match projectId with
      | some pid =>
        match findProject s pid with
        | none => .error "Cannot read properties of null"
        | some project =>
          let projBalanceBefore := project.currentFundBalance
          let project' : Project :=
            { project with
              currentFundBalance := project.currentFundBalance - amount
              totalExpenses := project.totalExpenses + amount
              updates := project.updates ++
                [{ utype := "Expense", amount := amount,
                   description := description,
                   balanceBefore := projBalanceBefore,
                   balanceAfter := project.currentFundBalance - amount }] }
          let s1 := updateProject s project'
          let description' :=
            if strIncludes description ("[" ++ project.title ++ "]") then
              description
            else "[" ++ project.title ++ "] " ++ description
          let s2 := updateFund s1 { fund with balance := fund.balance - amount }
          -- the source re-fetches the just-saved project for balanceAfter
          let tx : Transaction :=
            { id := s2.nextTxId, ttype := "Expense", amount := amount,
              description := description', status := "Success",
              memberId := memberId, fundId := some fundId,
              projectId := some pid,
              balanceBefore := balanceBefore,
              balanceAfter := project'.currentFundBalance,
              referenceNumber := none }
          .ok (pushTx s2 tx, tx)
      | none =>
        let s2 := updateFund s { fund with balance := fund.balance - amount }
        let tx : Transaction :=
          { id := s2.nextTxId, ttype := "Expense", amount := amount,
            description := description, status := "Success",
            memberId := memberId, fundId := some fundId, projectId := none,
            balanceBefore := balanceBefore,
            balanceAfter := fund.balance - amount,
            referenceNumber := none }
        .ok (pushTx s2 tx, tx)

/-! ## Operation: addEarning (financeController.js lines 495–573) -/

/-- `addEarning`.  Credits the fund; when a project is referenced and
found, also credits its balance and `totalEarnings` and appends an inline
update.  When a project is referenced but missing, the impact block is
skipped yet the `balanceAfter` line dereferences `null` and aborts the
whole operation. -/
def addEarning (s : State) (amount : ℚ) (fundId : Nat) (description : String)
    (category : String) (projectId : Option Nat) (memberId : Option Nat)
    (date : Nat) : Except String (State × Transaction) :=
  if amount ≤ 0 then .error "Invalid earning amount" else
  match findFund s fundId with
  | none => .error "Target Fund not found"
  | some fund =>
    let balanceBefore :=
      match projectId.bind (findProject s) with
      | some p => p.currentFundBalance
      | none => fund.balance
    let s1 := updateFund s { fund with balance := fund.balance + amount }
    match projectId with
    | some pid =>
      match findProject s1 pid with
      | none => .error "Cannot read properties of null"
      | some project =>
        let projBalanceBefore := project.currentFundBalance
        let project' : Project :=
          { project with
            currentFundBalance := project.currentFundBalance + amount
            totalEarnings := project.totalEarnings + amount
            updates := project.updates ++
              [{ utype := "Earning", amount := amount,
                 description := description,
                 balanceBefore := projBalanceBefore,
                 balanceAfter := project.currentFundBalance + amount }] }
        let s2 := updateProject s1 project'
        let tx : Transaction :=
          { id := s2.nextTxId, ttype := "Earning", amount := amount,
            description := description, status := "Success",
            memberId := memberId, fundId := some fundId,
            projectId := some pid,
            balanceBefore := balanceBefore,
            balanceAfter := project'.currentFundBalance,
            referenceNumber := none }
        .ok (pushTx s2 tx, tx)
    | none =>
      let tx : Transaction :=
        { id := s1.nextTxId, ttype := "Earning", amount := amount,
          description := description, status := "Success",
          memberId := memberId, fundId := some fundId, projectId := none,
          balanceBefore := balanceBefore,
          balanceAfter := fund.balance + amount,
          referenceNumber := none }
      .ok (pushTx s1 tx, tx)

/-! ## Operation: deleteTransaction (financeController.js lines 578–674) -/

/-- Fund-side reversal of `deleteTransaction`: inflow types are
subtracted back, outflow types added back; a missing fund reference is
silently skipped. -/
def deleteRevertFund (s : State) (tx : Transaction) : State :=
  match tx.fundId with
  | none => s
  | some fid =>
    match findFund s fid with
    | none => s
    | some fund =>
      if tx.ttype == "Deposit" || tx.ttype == "Earning" ||
          tx.ttype == "Investment" then
        updateFund s { fund with balance := fund.balance - tx.amount }
      else if tx.ttype == "Withdrawal" || tx.ttype == "Expense" ||
          tx.ttype == "Dividend" then
        updateFund s { fund with balance := fund.balance + tx.amount }
      else s

/-- Member-side reversal of `deleteTransaction`: deposits only; reverts
`totalContributed` and applies the `amount / 1000` estimated-share
reversal, clamped at zero. -/
def deleteRevertMember (s : State) (tx : Transaction) : State :=
  match tx.memberId with
  | none => s
  | some mid =>
    if tx.ttype == "Deposit" then
      match findMember s mid with
      | none => s
      | some member =>
        updateMember s
          { member with
            totalContributed := member.totalContributed - tx.amount
            shares := max 0 (member.shares - (⌊tx.amount / 1000⌋ : ℤ)) }
    else s

/-- Project-side reversal of `deleteTransaction` (type-aware; `Dividend`
has no project case and is left untouched). -/
def deleteRevertProject (s : State) (tx : Transaction) : State :=
  match tx.projectId with
  | none => s
  | some pid =>
    match findProject s pid with
    | none => s
    | some project =>
      if tx.ttype == "Earning" then
        updateProject s
          { project with
            currentFundBalance := project.currentFundBalance - tx.amount
            totalEarnings := project.totalEarnings - tx.amount }
      else if tx.ttype == "Expense" then
        updateProject s
          { project with
            currentFundBalance := project.currentFundBalance + tx.amount
            totalExpenses := max 0 (project.totalExpenses - tx.amount) }
      else if tx.ttype == "Investment" then
        updateProject s
          { project with
            currentFundBalance := project.currentFundBalance - tx.amount }
      else if tx.ttype == "Withdrawal" then
        updateProject s
          { project with
            currentFundBalance := project.currentFundBalance + tx.amount }
      else s

/-- `deleteTransaction`.  Reverses balance impact only for
`'Success'`/`'Completed'` transactions, archives the record (archive not
modelled — no claim observes it) and removes the transaction. -/
def deleteTransaction (s : State) (txId : Nat) : Except String State :=
  match findTx s txId with
  | none => .error "Transaction not found"
  | some tx =>
    let s1 :=
      if isApplied tx.status then
        deleteRevertProject (deleteRevertMember (deleteRevertFund s tx) tx) tx
      else s
    .ok { s1 with
          transactions := s1.transactions.filter (fun t => t.id != tx.id) }

/-! ## Operation: transferFunds (financeController.js lines 679–758) -/

/-- `transferFunds`.  Distinct funds, positive amount, sufficient source
balance; debits the source, credits the target, and records two
transactions: a `Withdrawal` on the source and an `Investment` on the
target, each with its own before/after snapshot, both embedding the same
caller-supplied description. -/
def transferFunds (s : State) (sourceFundId targetFundId : Nat)
    (amount : ℚ) (description : String) :
    Except String (State × Transaction × Transaction) :=
  if amount ≤ 0 then .error "Transfer amount must be positive" else
  if sourceFundId = targetFundId then
    .error "Source and Target funds must be different"
  else
    match findFund s sourceFundId, findFund s targetFundId with
    | some sourceFund, some targetFund =>
      if sourceFund.balance < amount then
        .error ("Insufficient funds in " ++ sourceFund.name)
      else
        let sourceBalBefore := sourceFund.balance
        let targetBalBefore := targetFund.balance
        let sourceFund' := { sourceFund with balance := sourceFund.balance - amount }
        let s1 := updateFund s sourceFund'
        let targetFund' := { targetFund with balance := targetFund.balance + amount }
        let s2 := updateFund s1 targetFund'
        let outTx : Transaction :=
          { id := s2.nextTxId, ttype := "Withdrawal", amount := amount,
            description := "[Transfer OUT] to " ++ targetFund.name ++ ": " ++ description,
            status := "Success", memberId := none,
            fundId := some sourceFundId, projectId := none,
            balanceBefore := sourceBalBefore,
            balanceAfter := sourceFund'.balance,
            referenceNumber := none }
        let s3 := pushTx s2 outTx
        let inTx : Transaction :=
          { id := s3.nextTxId, ttype := "Investment", amount := amount,
            description := "[Transfer IN] from " ++ sourceFund.name ++ ": " ++ description,
            status := "Success", memberId := none,
            fundId := some targetFundId, projectId := none,
            balanceBefore := targetBalBefore,
            balanceAfter := targetFund'.balance,
            referenceNumber := none }
        .ok (pushTx s3 inTx, outTx, inTx)
    | _, _ => .error "One or both funds not found"

/-! ## Operation: distributeDividends (financeController.js lines 764–879) -/

/-- The query `Member.find({ status: 'active', shares: { $gt: 0 } })`. -/
def activeShareholders (s : State) : List Member :=
  s.members.filter (fun m => m.status == "active" && decide (0 < m.shares))

/-- Per-member reward: `Math.floor((shares * ratePerShare) * 100) / 100`. -/
def memberReward (ratePerShare : ℚ) (m : Member) : ℚ :=
  (⌊m.shares * ratePerShare * 100⌋ : ℤ) / 100

/-- `distributeDividends`.  `batchId` (timestamp + randomness) is passed
in, being external input.  Members whose reward rounds to `≤ 0` are
dropped (`filter(Boolean)`); the source pool — the project's
`currentFundBalance` for `type === 'Project'`, else the fund balance — is
debited by the actual `totalDisbursed`, and one `Dividend` transaction per
recipient is batch-inserted. -/
def distributeDividends (s : State) (dtype : String) (amount : ℚ)
    (projectId : Option Nat) (sourceFundId : Option Nat)
    (description : String) (batchId : String) :
    Except String (State × List Transaction) :=
  if amount ≤ 0 then .error "Invalid dividend amount" else
  let members := activeShareholders s
  let totalActiveShares := (members.map Member.shares).sum
  if totalActiveShares = 0 then
    .error "No active shares available for distribution"
  else
    let ratePerShare := amount / totalActiveShares
    let recipients := members.filter (fun m => decide (0 < memberReward ratePerShare m))
    let totalDisbursed := (recipients.map (memberReward ratePerShare)).sum
    let dividendTransactions : List Transaction :=
      recipients.map (fun m =>
        { id := 0
          ttype := "Dividend"
          amount := memberReward ratePerShare m
          description := description
          status := "Success"
          memberId := some m.id
          projectId := if dtype == "Project" then projectId else none
          fundId := if dtype == "Global" then sourceFundId else none
          balanceBefore := 0
          balanceAfter := 0
          referenceNumber := some batchId })
    if dividendTransactions.isEmpty then
      .error "Calculated reward per member is too small for distribution"
    else if dtype == "Project" then
      match projectId.bind (findProject s) with
      | none => .error "Target Project not found"
      | some project =>
        if project.currentFundBalance < totalDisbursed then
          .error "Insufficient project balance"
        else
          let s1 := updateProject s
            { project with
              currentFundBalance := project.currentFundBalance - totalDisbursed }
          .ok (insertMany s1 dividendTransactions, dividendTransactions)
    else
      match sourceFundId.bind (findFund s) with
      | none => .error "Source Fund not found"
      | some fund =>
        if fund.balance < totalDisbursed then
          .error "Insufficient fund balance"
        else
          let s1 := updateFund s { fund with balance := fund.balance - totalDisbursed }
          .ok (insertMany s1 dividendTransactions, dividendTransactions)

/-! ## Operation: transferEquity (financeController.js lines 884–995) -/

/-- One element of the request's `transfers` array. -/
structure EquityTransfer where
  toMemberId : Nat
  amount : ℚ
  shares : ℚ
deriving Repr, DecidableEq

/-- The per-recipient loop of `transferEquity`: validates no
self-transfer, target existence and active status, credits the target and
collects its `Equity-Transfer` record. -/
def equityCreditLoop (fromMemberId : Nat) (sourceName reason : String)
    (batchId : String) :
    State → List EquityTransfer → Except String (State × List Transaction)
  | s, [] => .ok (s, [])
  | s, t :: rest =>
    if t.toMemberId = fromMemberId then
      .error "Self-transfer of equity is not permitted"
    else
      match findMember s t.toMemberId with
      | none => .error "Target member not found"
      | some targetMember =>
        if targetMember.status ≠ "active" then
          .error "Target member is not active"
        else
          let targetMember' :=
            { targetMember with
              totalContributed := targetMember.totalContributed + t.amount
              shares := targetMember.shares + t.shares }
          let s1 := updateMember s targetMember'
          let rec_ : Transaction :=
            { id := 0, ttype := "Equity-Transfer", amount := t.amount,
              description := "Equity Migration: Received from " ++ sourceName ++
                " [Reference: " ++ reason ++ "]",
              status := "Success", memberId := some t.toMemberId,
              fundId := none, projectId := none,
              balanceBefore := 0, balanceAfter := 0,
              referenceNumber := some batchId }
          match equityCreditLoop fromMemberId sourceName reason batchId s1 rest with
          | .error e => .error e
          | .ok (s2, recs) => .ok (s2, rec_ :: recs)

/-- `transferEquity`.  Validates aggregate amount/shares against the
source member's holdings, runs the per-recipient loop, batch-inserts the
recipient records, debits the source, auto-inactivates it when both
holdings reach exactly zero, and records one source-side transaction. -/
def transferEquity (s : State) (fromMemberId : Nat)
    (transfers : List EquityTransfer) (reason : String) (batchId : String) :
    Except String State :=
  if transfers.isEmpty then .error "Invalid transfer request" else
  match findMember s fromMemberId with
  | none => .error "Source member not found"
  | some sourceMember =>
    let totalBeingTransferred := (transfers.map EquityTransfer.amount).sum
    let totalSharesTransferred := (transfers.map EquityTransfer.shares).sum
    if sourceMember.totalContributed < totalBeingTransferred then
      .error "Insufficient contribution balance"
    else if sourceMember.shares < totalSharesTransferred then
      .error "Insufficient shares"
    else
      match equityCreditLoop fromMemberId sourceMember.name reason batchId
          s transfers with
      | .error e => .error e
      | .ok (s1, recipientTransactions) =>
        let s2 := insertMany s1 recipientTransactions
        let newTotalContributed :=
          sourceMember.totalContributed - totalBeingTransferred
        let newShares := sourceMember.shares - totalSharesTransferred
        let sourceMember' :=
          { sourceMember with
            totalContributed := newTotalContributed
            shares := newShares
            status :=
              if newTotalContributed = 0 ∧ newShares = 0 then "inactive"
              else sourceMember.status }
        let s3 := updateMember s2 sourceMember'
        let sourceTx : Transaction :=
          { id := s3.nextTxId, ttype := "Equity-Transfer",
            amount := totalBeingTransferred,
            description := "Equity Migration: Transferred to " ++
              toString transfers.length ++ " recipient(s) [Reference: " ++
              reason ++ "]",
            status := "Success", memberId := some fromMemberId,
            fundId := none, projectId := none,
            balanceBefore := 0, balanceAfter := 0,
            referenceNumber := some batchId }
        .ok (pushTx s3 sourceTx)

/-! ## Operation: reconcileFund (financeController.js lines 1118–1175) -/

/-- The response body of `reconcileFund`. -/
structure ReconcileResult where
  actualBalance : ℚ
  calculatedBalance : ℚ
  isMatched : Bool
  inflow : ℚ
  outflow : ℚ
deriving Repr, DecidableEq

/-- The aggregation over all `'Success'`/`'Completed'` transactions of a
fund: inflow types summed into `totalIn`, outflow types into `totalOut`. -/
def fundTxTotals (s : State) (fundId : Nat) : ℚ × ℚ :=
  let relevant := s.transactions.filter
    (fun t => t.fundId == some fundId && isApplied t.status)
  (((relevant.filter (fun t =>
        t.ttype == "Deposit" || t.ttype == "Earning" ||
        t.ttype == "Investment")).map Transaction.amount).sum,
   ((relevant.filter (fun t =>
        t.ttype == "Expense" || t.ttype == "Withdrawal" ||
        t.ttype == "Dividend" || t.ttype == "Adjustment")).map
      Transaction.amount).sum)

/-- `reconcileFund`.  Aggregates the fund's completed transactions,
compares `totalIn - totalOut` with the stored balance within `0.01`, and
stamps `lastReconciledAt` (`now`, external clock input) and
`reconciliationStatus` — the balance itself is never written. -/
def reconcileFund (s : State) (fundId : Nat) (now : Nat) :
    Except String (State × ReconcileResult) :=
  match findFund s fundId with
  | none => .error "Fund not found"
  | some fund =>
    let totals := fundTxTotals s fundId
    let calculatedBalance := totals.1 - totals.2
    let isMatched := decide (|calculatedBalance - fund.balance| < 1 / 100)
    let fund' :=
      { fund with
        lastReconciledAt := some now
        reconciliationStatus := if isMatched then "VERIFIED" else "DISCREPANCY" }
    .ok (updateFund s fund',
      { actualBalance := fund.balance
        calculatedBalance := calculatedBalance
        isMatched := isMatched
        inflow := totals.1
        outflow := totals.2 })

/-! ## Frame lemmas: each mutator touches exactly one collection -/

@[simp] theorem findFund_updateMember (s : State) (m : Member) (k : Nat) :
    findFund (updateMember s m) k = findFund s k := rfl

@[simp] theorem findFund_updateProject (s : State) (p : Project) (k : Nat) :
    findFund (updateProject s p) k = findFund s k := rfl

@[simp] theorem findFund_updateTx (s : State) (t : Transaction) (k : Nat) :
    findFund (updateTx s t) k = findFund s k := rfl

@[simp] theorem findFund_pushTx (s : State) (t : Transaction) (k : Nat) :
    findFund (pushTx s t) k = findFund s k := rfl

@[simp] theorem findFund_insertMany (s : State) (l : List Transaction) (k : Nat) :
    findFund (insertMany s l) k = findFund s k := rfl

@[simp] theorem findMember_updateFund (s : State) (f : Fund) (k : Nat) :
    findMember (updateFund s f) k = findMember s k := rfl

@[simp] theorem findMember_updateProject (s : State) (p : Project) (k : Nat) :
    findMember (updateProject s p) k = findMember s k := rfl

@[simp] theorem findMember_updateTx (s : State) (t : Transaction) (k : Nat) :
    findMember (updateTx s t) k = findMember s k := rfl

@[simp] theorem findMember_pushTx (s : State) (t : Transaction) (k : Nat) :
    findMember (pushTx s t) k = findMember s k := rfl

@[simp] theorem findMember_insertMany (s : State) (l : List Transaction) (k : Nat) :
    findMember (insertMany s l) k = findMember s k := rfl

@[simp] theorem findProject_updateFund (s : State) (f : Fund) (k : Nat) :
    findProject (updateFund s f) k = findProject s k := rfl

@[simp] theorem findProject_updateMember (s : State) (m : Member) (k : Nat) :
    findProject (updateMember s m) k = findProject s k := rfl

@[simp] theorem findProject_updateTx (s : State) (t : Transaction) (k : Nat) :
    findProject (updateTx s t) k = findProject s k := rfl

@[simp] theorem findProject_pushTx (s : State) (t : Transaction) (k : Nat) :
    findProject (pushTx s t) k = findProject s k := rfl

@[simp] theorem findProject_insertMany (s : State) (l : List Transaction) (k : Nat) :
    findProject (insertMany s l) k = findProject s k := rfl

@[simp] theorem transactions_updateFund (s : State) (f : Fund) :
    (updateFund s f).transactions = s.transactions := rfl

@[simp] theorem transactions_updateMember (s : State) (m : Member) :
    (updateMember s m).transactions = s.transactions := rfl

@[simp] theorem transactions_updateProject (s : State) (p : Project) :
    (updateProject s p).transactions = s.transactions := rfl

@[simp] theorem nextTxId_updateFund (s : State) (f : Fund) :
    (updateFund s f).nextTxId = s.nextTxId := rfl

@[simp] theorem nextTxId_updateMember (s : State) (m : Member) :
    (updateMember s m).nextTxId = s.nextTxId := rfl

@[simp] theorem nextTxId_updateProject (s : State) (p : Project) :
    (updateProject s p).nextTxId = s.nextTxId := rfl

theorem findFund_updateFund_self (s : State) (k : Nat) (fund f' : Fund)
    (h : findFund s k = some fund) (hk : f'.id = k) :
    findFund (updateFund s f') k = some f' :=
  findBy_updBy_self Fund.id k f' fund s.funds h hk

theorem findFund_updateFund_ne (s : State) (k : Nat) (f' : Fund)
    (hk : f'.id ≠ k) : findFund (updateFund s f') k = findFund s k :=
  findBy_updBy_ne Fund.id k f' s.funds hk

theorem findMember_updateMember_self (s : State) (k : Nat) (member m' : Member)
    (h : findMember s k = some member) (hk : m'.id = k) :
    findMember (updateMember s m') k = some m' :=
  findBy_updBy_self Member.id k m' member s.members h hk

theorem findMember_updateMember_ne (s : State) (k : Nat) (m' : Member)
    (hk : m'.id ≠ k) : findMember (updateMember s m') k = findMember s k :=
  findBy_updBy_ne Member.id k m' s.members hk

theorem findProject_updateProject_self (s : State) (k : Nat)
    (project p' : Project) (h : findProject s k = some project)
    (hk : p'.id = k) : findProject (updateProject s p') k = some p' :=
  findBy_updBy_self Project.id k p' project s.projects h hk

theorem findProject_updateProject_ne (s : State) (k : Nat) (p' : Project)
    (hk : p'.id ≠ k) : findProject (updateProject s p') k = findProject s k :=
  findBy_updBy_ne Project.id k p' s.projects hk

/-- A fresh id (all existing transactions have another id) is found in an
append exactly at the appended element. -/
theorem findTx_pushTx_fresh (s : State) (t : Transaction)
    (hfresh : ∀ u ∈ s.transactions, u.id ≠ t.id) :
    findTx (pushTx s t) t.id = some t := by
  have h1 : List.find? (fun x => x.id == t.id) s.transactions = none :=
    List.find?_eq_none.mpr (fun u hu => by simp [hfresh u hu])
  show List.find? (fun x => x.id == t.id) (s.transactions ++ [t]) = some t
  rw [List.find?_append, h1]
  simp

/-! ## Claim C10 -/

/-- C10: Deposit approval gates only on status, never on transaction
type: for every existing transaction whose status is neither `'Success'`
nor `'Completed'` — whatever its type — whose fund and member exist,
approval adds the transaction's amount to the fund balance and to the
member's `totalContributed` and sets the status to `'Completed'`,
without verifying that the transaction is a pending deposit (no
hypothesis of this theorem mentions the transaction's type). -/
theorem approveDeposit_gates_only_on_status
    (s : State) (txId fid mid : Nat) (tx : Transaction) (fund : Fund)
    (member : Member)
    (htx : findTx s txId = some tx)
    (hst : ¬(tx.status = "Success" ∨ tx.status = "Completed"))
    (hfid : tx.fundId = some fid) (hf : findFund s fid = some fund)
    (hmid : tx.memberId = some mid) (hm : findMember s mid = some member) :
    ∃ s' tx', approveDeposit s txId = .ok (s', tx') ∧
      tx'.status = "Completed" ∧ tx'.ttype = tx.ttype ∧
      tx'.amount = tx.amount ∧
      (findFund s' fid).map Fund.balance = some (fund.balance + tx.amount) ∧
      (findMember s' mid).map Member.totalContributed =
        some (member.totalContributed + tx.amount) := by
  have hst' := not_or.mp hst
  have happ : isApplied tx.status = false := by
    simp [isApplied, hst'.1, hst'.2]
  refine ⟨updateTx
      (updateMember
        (updateFund s { fund with balance := fund.balance + tx.amount })
        { member with
          totalContributed := member.totalContributed + tx.amount })
      { tx with status := "Completed" },
    { tx with status := "Completed" }, ?_, rfl, rfl, rfl, ?_, ?_⟩
  · rw [approveDeposit, htx]
    simp only [happ, Bool.false_eq_true, if_false, hfid, hmid, Option.bind,
      hf, hm]
  · rw [findFund_updateTx, findFund_updateMember,
      findFund_updateFund_self s fid fund
        { fund with balance := fund.balance + tx.amount } hf
        (findBy_key Fund.id fid s.funds fund hf)]
    rfl
  · have h1 : findMember
        (updateFund s { fund with balance := fund.balance + tx.amount }) mid =
        some member := hm
    rw [findMember_updateTx,
      findMember_updateMember_self _ mid member
        { member with totalContributed := member.totalContributed + tx.amount }
        h1 (findBy_key Member.id mid s.members member hm)]
    rfl

/-- Witness for C10: a `Failed` `Expense` transaction is approved, adding
its amount to the fund and to the member's `totalContributed`. -/
theorem approveDeposit_gates_only_on_status_witness :
    ∃ s' tx',
      approveDeposit
        { funds := [{ id := 1, name := "A", ftype := "OTHER", balance := 100,
                      reconciliationStatus := "PENDING",
                      lastReconciledAt := none }],
          members := [{ id := 1, name := "m", status := "active",
                        shares := 5, totalContributed := 20 }],
          projects := [],
          transactions := [{ id := 7, ttype := "Expense", amount := 30,
                             description := "", status := "Failed",
                             memberId := some 1, fundId := some 1,
                             projectId := none, balanceBefore := 0,
                             balanceAfter := 0, referenceNumber := none }],
          nextTxId := 8 } 7 = .ok (s', tx') ∧
      tx'.status = "Completed" ∧ tx'.ttype = "Expense" ∧ tx'.amount = 30 ∧
      (findFund s' 1).map Fund.balance = some (100 + 30) ∧
      (findMember s' 1).map Member.totalContributed = some (20 + 30) := by
  obtain ⟨s', tx', h1, h2, h3, h4, h5, h6⟩ :=
    approveDeposit_gates_only_on_status
      { funds := [{ id := 1, name := "A", ftype := "OTHER", balance := 100,
                    reconciliationStatus := "PENDING",
                    lastReconciledAt := none }],
        members := [{ id := 1, name := "m", status := "active",
                      shares := 5, totalContributed := 20 }],
        projects := [],
        transactions := [{ id := 7, ttype := "Expense", amount := 30,
                           description := "", status := "Failed",
                           memberId := some 1, fundId := some 1,
                           projectId := none, balanceBefore := 0,
                           balanceAfter := 0, referenceNumber := none }],
        nextTxId := 8 } 7 1 1
      { id := 7, ttype := "Expense", amount := 30, description := "",
        status := "Failed", memberId := some 1, fundId := some 1,
        projectId := none, balanceBefore := 0, balanceAfter := 0,
        referenceNumber := none }
      { id := 1, name := "A", ftype := "OTHER", balance := 100,
        reconciliationStatus := "PENDING", lastReconciledAt := none }
      { id := 1, name := "m", status := "active", shares := 5,
        totalContributed := 20 }
      (by decide) (by decide) rfl (by decide) rfl (by decide)
  exact ⟨s', tx', h1, h2, h3, h4, h5, h6⟩

/-! ## Claim C9 -/

@[simp] theorem fundTxTotals_updateFund (s : State) (f : Fund) (k : Nat) :
    fundTxTotals (updateFund s f) k = fundTxTotals s k := rfl

/-- C9: Fund reconciliation is idempotent and read-only with respect to
balances: it never changes `fund.balance` — the only fund fields written
are `reconciliationStatus` and `lastReconciledAt` — it changes no
transaction, and running it twice with no intervening transactions yields
the identical `calculatedBalance` both times. -/
theorem reconcileFund_readonly_idempotent
    (s : State) (fid : Nat) (fund : Fund) (now now2 : Nat)
    (hf : findFund s fid = some fund) :
    ∃ s' r, reconcileFund s fid now = .ok (s', r) ∧
      (∃ st, findFund s' fid =
        some { fund with lastReconciledAt := some now,
                         reconciliationStatus := st }) ∧
      (findFund s' fid).map Fund.balance = some fund.balance ∧
      s'.transactions = s.transactions ∧
      ∃ s'' r2, reconcileFund s' fid now2 = .ok (s'', r2) ∧
        r2.calculatedBalance = r.calculatedBalance := by
  have hkey : fund.id = fid := findBy_key Fund.id fid s.funds fund hf
  simp only [reconcileFund, hf]
  refine ⟨_, _, rfl, ?_, ?_, rfl, ?_⟩
  · exact ⟨_, findFund_updateFund_self s fid fund
      { fund with
        lastReconciledAt := some now
        reconciliationStatus :=
          if decide (|(fundTxTotals s fid).1 - (fundTxTotals s fid).2 -
              fund.balance| < 1 / 100) = true then "VERIFIED"
          else "DISCREPANCY" } hf hkey⟩
  · rw [findFund_updateFund_self s fid fund
      { fund with
        lastReconciledAt := some now
        reconciliationStatus :=
          if decide (|(fundTxTotals s fid).1 - (fundTxTotals s fid).2 -
              fund.balance| < 1 / 100) = true then "VERIFIED"
          else "DISCREPANCY" } hf hkey]
    rfl
  · have h2 := findFund_updateFund_self s fid fund
      { fund with
        lastReconciledAt := some now
        reconciliationStatus :=
          if decide (|(fundTxTotals s fid).1 - (fundTxTotals s fid).2 -
              fund.balance| < 1 / 100) = true then "VERIFIED"
          else "DISCREPANCY" } hf hkey
    simp only [reconcileFund, h2, fundTxTotals_updateFund]
    exact ⟨_, _, rfl, rfl⟩

/-- Witness for C9: a fund with one completed deposit of 50 and stored
balance 50 reconciles twice with the same `calculatedBalance`, the
balance untouched. -/
theorem reconcileFund_readonly_idempotent_witness :
    ∃ s' r, reconcileFund
      { funds := [{ id := 1, name := "A", ftype := "OTHER", balance := 50,
                    reconciliationStatus := "PENDING",
                    lastReconciledAt := none }],
        members := [], projects := [],
        transactions := [{ id := 0, ttype := "Deposit", amount := 50,
                           description := "", status := "Completed",
                           memberId := none, fundId := some 1,
                           projectId := none, balanceBefore := 0,
                           balanceAfter := 50, referenceNumber := none }],
        nextTxId := 1 } 1 11 = .ok (s', r) ∧
      (∃ st, findFund s' 1 =
        some { id := 1, name := "A", ftype := "OTHER", balance := 50,
               reconciliationStatus := st,
               lastReconciledAt := some 11 }) ∧
      (findFund s' 1).map Fund.balance = some 50 ∧
      s'.transactions =
        [{ id := 0, ttype := "Deposit", amount := 50, description := "",
           status := "Completed", memberId := none, fundId := some 1,
           projectId := none, balanceBefore := 0, balanceAfter := 50,
           referenceNumber := none }] ∧
      ∃ s'' r2, reconcileFund s' 1 12 = .ok (s'', r2) ∧
        r2.calculatedBalance = r.calculatedBalance := by
  obtain ⟨s', r, h1, h2, h3, h4, h5⟩ :=
    reconcileFund_readonly_idempotent
      { funds := [{ id := 1, name := "A", ftype := "OTHER", balance := 50,
                    reconciliationStatus := "PENDING",
                    lastReconciledAt := none }],
        members := [], projects := [],
        transactions := [{ id := 0, ttype := "Deposit", amount := 50,
                           description := "", status := "Completed",
                           memberId := none, fundId := some 1,
                           projectId := none, balanceBefore := 0,
                           balanceAfter := 50, referenceNumber := none }],
        nextTxId := 1 } 1
      { id := 1, name := "A", ftype := "OTHER", balance := 50,
        reconciliationStatus := "PENDING", lastReconciledAt := none }
      11 12 rfl
  exact ⟨s', r, h1, h2, h3, h4, h5⟩

/-! ## Claim C7 -/

/-- C7: An inter-fund transfer of a positive amount between two distinct
funds with sufficient source balance debits the source and credits the
target by exactly that amount and creates exactly two Transaction
records — a `Withdrawal` on the source and an `Investment` on the target,
each with its own before/after snapshot and both embedding the same
caller-supplied description. -/
theorem transferFunds_exact (s : State) (sfid tfid : Nat) (amount : ℚ)
    (d : String) (src tgt : Fund)
    (hpos : 0 < amount) (hne : sfid ≠ tfid)
    (hs : findFund s sfid = some src) (ht : findFund s tfid = some tgt)
    (hbal : amount ≤ src.balance) :
    ∃ s' outTx inTx,
      transferFunds s sfid tfid amount d = .ok (s', outTx, inTx) ∧
      (findFund s' sfid).map Fund.balance = some (src.balance - amount) ∧
      (findFund s' tfid).map Fund.balance = some (tgt.balance + amount) ∧
      outTx.ttype = "Withdrawal" ∧ outTx.fundId = some sfid ∧
      outTx.amount = amount ∧
      outTx.balanceBefore = src.balance ∧
      outTx.balanceAfter = src.balance - amount ∧
      inTx.ttype = "Investment" ∧ inTx.fundId = some tfid ∧
      inTx.amount = amount ∧
      inTx.balanceBefore = tgt.balance ∧
      inTx.balanceAfter = tgt.balance + amount ∧
      outTx.description = "[Transfer OUT] to " ++ tgt.name ++ ": " ++ d ∧
      inTx.description = "[Transfer IN] from " ++ src.name ++ ": " ++ d ∧
      s'.transactions = s.transactions ++ [outTx, inTx] := by
  have hksrc : src.id = sfid := findBy_key Fund.id sfid s.funds src hs
  have hktgt : tgt.id = tfid := findBy_key Fund.id tfid s.funds tgt ht
  simp only [transferFunds, if_neg (not_le.mpr hpos), if_neg hne, hs, ht,
    if_neg (not_lt.mpr hbal)]
  refine ⟨_, _, _, rfl, ?_, ?_, rfl, rfl, rfl, rfl, rfl, rfl, rfl, rfl,
    rfl, rfl, rfl, rfl, ?_⟩
  · rw [findFund_pushTx, findFund_pushTx,
      findFund_updateFund_ne _ sfid { tgt with balance := tgt.balance + amount }
        (by simpa [hktgt] using hne.symm),
      findFund_updateFund_self s sfid src
        { src with balance := src.balance - amount } hs hksrc]
    rfl
  · have h1 : findFund
        (updateFund s { src with balance := src.balance - amount }) tfid =
        some tgt := by
      rw [findFund_updateFund_ne _ tfid
        { src with balance := src.balance - amount } (by simpa [hksrc] using hne)]
      exact ht
    rw [findFund_pushTx, findFund_pushTx,
      findFund_updateFund_self _ tfid tgt
        { tgt with balance := tgt.balance + amount } h1 hktgt]
    rfl
  · show (s.transactions ++ [_]) ++ [_] = s.transactions ++ [_, _]
    rw [List.append_assoc]
    rfl

/-- Witness for C7, the spec's own scenario: Fund A balance 1000, Fund B
balance 0, transfer 400 A→B gives A.balance 600, B.balance 400 and two
transactions. -/
theorem transferFunds_exact_witness :
    ∃ s' outTx inTx,
      transferFunds
        { funds := [{ id := 1, name := "A", ftype := "OTHER", balance := 1000,
                      reconciliationStatus := "PENDING",
                      lastReconciledAt := none },
                    { id := 2, name := "B", ftype := "OTHER", balance := 0,
                      reconciliationStatus := "PENDING",
                      lastReconciledAt := none }],
          members := [], projects := [], transactions := [], nextTxId := 0 }
        1 2 400 "move" = .ok (s', outTx, inTx) ∧
      (findFund s' 1).map Fund.balance = some 600 ∧
      (findFund s' 2).map Fund.balance = some 400 ∧
      outTx.ttype = "Withdrawal" ∧ inTx.ttype = "Investment" ∧
      s'.transactions = [outTx, inTx] := by
  obtain ⟨s', outTx, inTx, h1, h2, h3, h4, _, _, _, _, h9, _, _, _, _, _,
      _, h16⟩ :=
    transferFunds_exact
      { funds := [{ id := 1, name := "A", ftype := "OTHER", balance := 1000,
                    reconciliationStatus := "PENDING",
                    lastReconciledAt := none },
                  { id := 2, name := "B", ftype := "OTHER", balance := 0,
                    reconciliationStatus := "PENDING",
                    lastReconciledAt := none }],
        members := [], projects := [], transactions := [], nextTxId := 0 }
      1 2 400 "move"
      { id := 1, name := "A", ftype := "OTHER", balance := 1000,
        reconciliationStatus := "PENDING", lastReconciledAt := none }
      { id := 2, name := "B", ftype := "OTHER", balance := 0,
        reconciliationStatus := "PENDING", lastReconciledAt := none }
      (by norm_num) (by decide) rfl rfl (by norm_num)
  refine ⟨s', outTx, inTx, h1, ?_, ?_, h4, h9, h16⟩
  · rw [h2]; norm_num
  · rw [h3]; norm_num

/-! ## Claim C6 -/

/-- Did the operation abort? (On abort the session rolls back, so the
caller's state is unchanged.) -/
def isError {α : Type} : Except String α → Bool
  | .error _ => true
  | .ok _ => false

/-- C6 counterexample: a general (no-project) expense of 50 drawn on a
`'PROJECT'`-type fund with balance 100 — sufficient balance — fails
instead of debiting the fund, refuting "for every expense where the
source fund has sufficient balance, the fund's balance … decreases by
exactly the amount". -/
theorem addExpense_sufficient_balance_cex :
    addExpense
      { funds := [{ id := 1, name := "P", ftype := "PROJECT", balance := 100,
                    reconciliationStatus := "PENDING",
                    lastReconciledAt := none }],
        members := [], projects := [], transactions := [], nextTxId := 0 }
      50 1 "general" "Operational" none none 0 =
      .error "Project-specific funds cannot be used for general expenses" := by
  rfl

/-- C6 (amended): for every expense request naming an existing fund,
(a) with sufficient balance, a non-`'PROJECT'`-type fund and no project,
the fund decreases by exactly the amount; (b) with sufficient balance and
an existing referenced project, the fund and the project's
`currentFundBalance` each decrease by exactly the amount; (c) whenever
`amount > fund.balance` the operation fails (and the aborted session
leaves every balance unchanged).  A general expense on a
`'PROJECT'`-type fund fails even with sufficient balance
(`addExpense_sufficient_balance_cex`). -/
theorem addExpense_balance_spec :
    (∀ s amount fid d c mid date fund, findFund s fid = some fund →
      fund.ftype ≠ "PROJECT" → amount ≤ fund.balance →
      ∃ s' tx, addExpense s amount fid d c none mid date = .ok (s', tx) ∧
        (findFund s' fid).map Fund.balance = some (fund.balance - amount) ∧
        tx.balanceBefore - tx.balanceAfter = amount) ∧
    (∀ s amount fid d c pid mid date fund project,
      findFund s fid = some fund → findProject s pid = some project →
      amount ≤ fund.balance →
      ∃ s' tx, addExpense s amount fid d c (some pid) mid date = .ok (s', tx) ∧
        (findFund s' fid).map Fund.balance = some (fund.balance - amount) ∧
        (findProject s' pid).map Project.currentFundBalance =
          some (project.currentFundBalance - amount)) ∧
    (∀ s amount fid d c pid mid date fund, findFund s fid = some fund →
      fund.balance < amount →
      isError (addExpense s amount fid d c pid mid date) = true) := by
  refine ⟨?_, ?_, ?_⟩
  · intro s amount fid d c mid date fund hf hft hbal
    have hkey : fund.id = fid := findBy_key Fund.id fid s.funds fund hf
    have hguard : (Option.isNone (none : Option Nat) &&
        fund.ftype == "PROJECT") = false := by simp [hft]
    simp only [addExpense, hf, hguard, Bool.false_eq_true, if_false,
      if_neg (not_lt.mpr hbal), Option.bind]
    refine ⟨_, _, rfl, ?_, by ring⟩
    rw [findFund_pushTx, findFund_updateFund_self s fid fund
      { fund with balance := fund.balance - amount } hf hkey]
    rfl
  · intro s amount fid d c pid mid date fund project hf hp hbal
    have hkey : fund.id = fid := findBy_key Fund.id fid s.funds fund hf
    have hpkey : project.id = pid :=
      findBy_key Project.id pid s.projects project hp
    have hguard : (Option.isNone (some pid) && fund.ftype == "PROJECT") =
        false := by simp
    simp only [addExpense, hf, hguard, Bool.false_eq_true, if_false,
      if_neg (not_lt.mpr hbal), Option.bind, hp]
    refine ⟨_, _, rfl, ?_, ?_⟩
    · have h1 : findFund (updateProject s
          { project with
            currentFundBalance := project.currentFundBalance - amount
            totalExpenses := project.totalExpenses + amount
            updates := project.updates ++
              [{ utype := "Expense", amount := amount, description := d,
                 balanceBefore := project.currentFundBalance,
                 balanceAfter := project.currentFundBalance - amount }] })
          fid = some fund := hf
      rw [findFund_pushTx, findFund_updateFund_self _ fid fund
        { fund with balance := fund.balance - amount } h1 hkey]
      rfl
    · rw [findProject_pushTx, findProject_updateFund,
        findProject_updateProject_self s pid project
          { project with
            currentFundBalance := project.currentFundBalance - amount
            totalExpenses := project.totalExpenses + amount
            updates := project.updates ++
              [{ utype := "Expense", amount := amount, description := d,
                 balanceBefore := project.currentFundBalance,
                 balanceAfter := project.currentFundBalance - amount }] }
          hp hpkey]
      rfl
  · intro s amount fid d c pid mid date fund hf hbal
    simp only [addExpense, hf]
    by_cases hguard : (pid.isNone && fund.ftype == "PROJECT") = true
    · rw [if_pos hguard]
      rfl
    · rw [if_neg hguard, if_pos hbal]
      rfl

/-- Witness for C6 (amended): a project-linked expense of 30 on a fund
with balance 100 and project balance 80 leaves fund 70 and project 50;
an expense of 200 on the same fund fails. -/
theorem addExpense_balance_spec_witness :
    (∃ s' tx, addExpense
      { funds := [{ id := 1, name := "A", ftype := "OTHER", balance := 100,
                    reconciliationStatus := "PENDING",
                    lastReconciledAt := none }],
        members := [],
        projects := [{ id := 4, title := "T", linkedFundId := some 1,
                       currentFundBalance := 80, totalEarnings := 0,
                       totalExpenses := 0, updates := [] }],
        transactions := [], nextTxId := 0 }
      30 1 "d" "Operational" (some 4) none 0 = .ok (s', tx) ∧
      (findFund s' 1).map Fund.balance = some 70 ∧
      (findProject s' 4).map Project.currentFundBalance = some 50) ∧
    isError (addExpense
      { funds := [{ id := 1, name := "A", ftype := "OTHER", balance := 100,
                    reconciliationStatus := "PENDING",
                    lastReconciledAt := none }],
        members := [], projects := [], transactions := [], nextTxId := 0 }
      200 1 "d" "Operational" none none 0) = true := by
  constructor
  · obtain ⟨s', tx, h1, h2, h3⟩ :=
      addExpense_balance_spec.2.1
        { funds := [{ id := 1, name := "A", ftype := "OTHER", balance := 100,
                      reconciliationStatus := "PENDING",
                      lastReconciledAt := none }],
          members := [],
          projects := [{ id := 4, title := "T", linkedFundId := some 1,
                         currentFundBalance := 80, totalEarnings := 0,
                         totalExpenses := 0, updates := [] }],
          transactions := [], nextTxId := 0 }
        30 1 "d" "Operational" 4 none 0
        { id := 1, name := "A", ftype := "OTHER", balance := 100,
          reconciliationStatus := "PENDING", lastReconciledAt := none }
        { id := 4, title := "T", linkedFundId := some 1,
          currentFundBalance := 80, totalEarnings := 0,
          totalExpenses := 0, updates := [] }
        rfl rfl (by norm_num)
    refine ⟨s', tx, h1, ?_, ?_⟩
    · rw [h2]; norm_num
    · rw [h3]; norm_num
  · exact addExpense_balance_spec.2.2
      { funds := [{ id := 1, name := "A", ftype := "OTHER", balance := 100,
                    reconciliationStatus := "PENDING",
                    lastReconciledAt := none }],
        members := [], projects := [], transactions := [], nextTxId := 0 }
      200 1 "d" "Operational" none none 0
      { id := 1, name := "A", ftype := "OTHER", balance := 100,
        reconciliationStatus := "PENDING", lastReconciledAt := none }
      rfl (by norm_num)

/-! ## Shared evaluation lemmas for addDeposit -/

theorem addDeposit_applied_ok (s : State) (mid : Nat) (amount : ℚ)
    (fid : Nat) (d : String) (st : Option String) (fund : Fund)
    (member : Member)
    (hamt : 0 < amount) (hf : findFund s fid = some fund)
    (hm : findMember s mid = some member)
    (hst : st = some "Success" ∨ st = some "Completed") :
    addDeposit s mid amount fid d st = .ok
      (updateMember
        (updateFund
          (pushTx s
            { id := s.nextTxId, ttype := "Deposit", amount := amount,
              description := d, status := st.getD "Completed",
              memberId := some mid, fundId := some fid, projectId := none,
              balanceBefore := fund.balance,
              balanceAfter := fund.balance + amount,
              referenceNumber := none })
          { fund with balance := fund.balance + amount })
        { member with
          totalContributed := member.totalContributed + amount },
      { id := s.nextTxId, ttype := "Deposit", amount := amount,
        description := d, status := st.getD "Completed",
        memberId := some mid, fundId := some fid, projectId := none,
        balanceBefore := fund.balance,
        balanceAfter := fund.balance + amount,
        referenceNumber := none }) := by
  have happ : optApplied st = true := by
    rcases hst with h | h <;> simp [h, optApplied, isApplied]
  simp only [addDeposit, if_neg (not_le.mpr hamt), hf, hm, happ, if_true]

theorem addDeposit_unapplied_ok (s : State) (mid : Nat) (amount : ℚ)
    (fid : Nat) (d : String) (st : Option String) (fund : Fund)
    (member : Member)
    (hamt : 0 < amount) (hf : findFund s fid = some fund)
    (hm : findMember s mid = some member)
    (hst : optApplied st = false) :
    addDeposit s mid amount fid d st = .ok
      (pushTx s
        { id := s.nextTxId, ttype := "Deposit", amount := amount,
          description := d, status := st.getD "Completed",
          memberId := some mid, fundId := some fid, projectId := none,
          balanceBefore := fund.balance, balanceAfter := fund.balance,
          referenceNumber := none },
      { id := s.nextTxId, ttype := "Deposit", amount := amount,
        description := d, status := st.getD "Completed",
        memberId := some mid, fundId := some fid, projectId := none,
        balanceBefore := fund.balance, balanceAfter := fund.balance,
        referenceNumber := none }) := by
  simp only [addDeposit, if_neg (not_le.mpr hamt), hf, hm, hst,
    Bool.false_eq_true, if_false]

/-! ## Claim C2 -/

/-- C2 counterexample: a deposit of 1000 created `'Pending'` and then
approved ends in a completed state and credits the fund, but the stored
Transaction keeps its creation-time snapshots, so
`balanceAfter - balanceBefore = 0 ≠ 1000`. -/
theorem approveDeposit_snapshot_cex :
    ∃ s' tx',
      approveDeposit
        { funds := [{ id := 1, name := "A", ftype := "OTHER", balance := 100,
                      reconciliationStatus := "PENDING",
                      lastReconciledAt := none }],
          members := [{ id := 1, name := "m", status := "active",
                        shares := 5, totalContributed := 0 }],
          projects := [],
          transactions := [{ id := 0, ttype := "Deposit", amount := 1000,
                             description := "", status := "Pending",
                             memberId := some 1, fundId := some 1,
                             projectId := none, balanceBefore := 100,
                             balanceAfter := 100,
                             referenceNumber := none }],
          nextTxId := 1 } 0 = .ok (s', tx') ∧
      tx'.status = "Completed" ∧ tx'.amount = 1000 ∧
      (findFund s' 1).map Fund.balance = some 1100 ∧
      tx'.balanceAfter - tx'.balanceBefore = 0 := by
  refine ⟨_, _, rfl, rfl, rfl, ?_, by norm_num⟩
  norm_num [findFund, findBy, updateTx, updateMember, updateFund, updBy,
    List.find?]

/-- C2 (amended): (a) a deposit created with explicit status
`'Success'`/`'Completed'` credits the fund by the amount and its stored
snapshots differ by the amount; (b) likewise every earning (with or
without a linked project); (c) approval of a non-completed transaction
credits the fund by the amount but leaves the stored transaction's
`balanceBefore`/`balanceAfter` exactly as they were at creation; (d) a
deposit created with no explicit status is stored as `'Completed'` yet
applies no balance impact and its snapshots are equal. -/
theorem completed_operations_balance_spec :
    (∀ s mid amount fid d st fund member, 0 < amount →
      findFund s fid = some fund → findMember s mid = some member →
      st = some "Success" ∨ st = some "Completed" →
      ∃ s' tx, addDeposit s mid amount fid d st = .ok (s', tx) ∧
        (findFund s' fid).map Fund.balance = some (fund.balance + amount) ∧
        tx.balanceAfter - tx.balanceBefore = amount) ∧
    (∀ s amount fid d c mid date fund, 0 < amount →
      findFund s fid = some fund →
      ∃ s' tx, addEarning s amount fid d c none mid date = .ok (s', tx) ∧
        (findFund s' fid).map Fund.balance = some (fund.balance + amount) ∧
        tx.balanceAfter - tx.balanceBefore = amount) ∧
    (∀ s amount fid d c pid mid date fund project, 0 < amount →
      findFund s fid = some fund → findProject s pid = some project →
      ∃ s' tx, addEarning s amount fid d c (some pid) mid date =
          .ok (s', tx) ∧
        (findFund s' fid).map Fund.balance = some (fund.balance + amount) ∧
        tx.balanceAfter - tx.balanceBefore = amount) ∧
    (∀ s txId fid mid tx fund member, findTx s txId = some tx →
      ¬(tx.status = "Success" ∨ tx.status = "Completed") →
      tx.fundId = some fid → findFund s fid = some fund →
      tx.memberId = some mid → findMember s mid = some member →
      ∃ s' tx', approveDeposit s txId = .ok (s', tx') ∧
        (findFund s' fid).map Fund.balance = some (fund.balance + tx.amount) ∧
        tx'.balanceBefore = tx.balanceBefore ∧
        tx'.balanceAfter = tx.balanceAfter) ∧
    (∀ s mid amount fid d fund member, 0 < amount →
      findFund s fid = some fund → findMember s mid = some member →
      ∃ s' tx, addDeposit s mid amount fid d none = .ok (s', tx) ∧
        tx.status = "Completed" ∧
        (findFund s' fid).map Fund.balance = some fund.balance ∧
        tx.balanceAfter - tx.balanceBefore = 0) := by
  refine ⟨?_, ?_, ?_, ?_, ?_⟩
  · intro s mid amount fid d st fund member hamt hf hm hst
    have hkey : fund.id = fid := findBy_key Fund.id fid s.funds fund hf
    refine ⟨_, _, addDeposit_applied_ok s mid amount fid d st fund member
      hamt hf hm hst, ?_, by ring⟩
    show Option.map Fund.balance
      (findFund (updateFund s { fund with balance := fund.balance + amount })
        fid) = some (fund.balance + amount)
    rw [findFund_updateFund_self s fid fund
      { fund with balance := fund.balance + amount } hf hkey]
    rfl
  · intro s amount fid d c mid date fund hamt hf
    have hkey : fund.id = fid := findBy_key Fund.id fid s.funds fund hf
    simp only [addEarning, if_neg (not_le.mpr hamt), hf, Option.bind]
    refine ⟨_, _, rfl, ?_, by ring⟩
    rw [findFund_pushTx, findFund_updateFund_self s fid fund
      { fund with balance := fund.balance + amount } hf hkey]
    rfl
  · intro s amount fid d c pid mid date fund project hamt hf hp
    have hkey : fund.id = fid := findBy_key Fund.id fid s.funds fund hf
    have hp1 : findProject
        (updateFund s { fund with balance := fund.balance + amount }) pid =
        some project := hp
    simp only [addEarning, if_neg (not_le.mpr hamt), hf, Option.bind, hp,
      hp1]
    refine ⟨_, _, rfl, ?_, by ring⟩
    rw [findFund_pushTx, findFund_updateProject,
      findFund_updateFund_self s fid fund
        { fund with balance := fund.balance + amount } hf hkey]
    rfl
  · intro s txId fid mid tx fund member htx hst hfid hf hmid hm
    have hst' := not_or.mp hst
    have happ : isApplied tx.status = false := by
      simp [isApplied, hst'.1, hst'.2]
    have hkey : fund.id = fid := findBy_key Fund.id fid s.funds fund hf
    simp only [approveDeposit, htx, happ, Bool.false_eq_true, if_false,
      hfid, hmid, Option.bind, hf, hm]
    refine ⟨_, _, rfl, ?_, rfl, rfl⟩
    rw [findFund_updateTx, findFund_updateMember,
      findFund_updateFund_self s fid fund
        { fund with balance := fund.balance + tx.amount } hf hkey]
    rfl
  · intro s mid amount fid d fund member hamt hf hm
    refine ⟨_, _, addDeposit_unapplied_ok s mid amount fid d none fund
      member hamt hf hm rfl, rfl, ?_, by ring⟩
    rw [findFund_pushTx, hf]
    rfl

/-- Witness for C2 (amended), part (a): a completed deposit of 40 on a
fund with balance 10 yields balance 50 and snapshot difference 40. -/
theorem completed_operations_balance_spec_witness :
    ∃ s' tx, addDeposit
      { funds := [{ id := 1, name := "A", ftype := "OTHER", balance := 10,
                    reconciliationStatus := "PENDING",
                    lastReconciledAt := none }],
        members := [{ id := 1, name := "m", status := "active",
                      shares := 5, totalContributed := 0 }],
        projects := [], transactions := [], nextTxId := 0 }
      1 40 1 "d" (some "Completed") = .ok (s', tx) ∧
      (findFund s' 1).map Fund.balance = some 50 ∧
      tx.balanceAfter - tx.balanceBefore = 40 := by
  obtain ⟨s', tx, h1, h2, h3⟩ :=
    completed_operations_balance_spec.1
      { funds := [{ id := 1, name := "A", ftype := "OTHER", balance := 10,
                    reconciliationStatus := "PENDING",
                    lastReconciledAt := none }],
        members := [{ id := 1, name := "m", status := "active",
                      shares := 5, totalContributed := 0 }],
        projects := [], transactions := [], nextTxId := 0 }
      1 40 1 "d" (some "Completed")
      { id := 1, name := "A", ftype := "OTHER", balance := 10,
        reconciliationStatus := "PENDING", lastReconciledAt := none }
      { id := 1, name := "m", status := "active", shares := 5,
        totalContributed := 0 }
      (by norm_num) rfl rfl (Or.inr rfl)
  refine ⟨s', tx, h1, ?_, h3⟩
  rw [h2]; norm_num

/-! ## Shared evaluation lemmas for deleteTransaction -/

theorem deleteRevertFund_inflow (s : State) (tx : Transaction) (fid : Nat)
    (fund : Fund)
    (hty : tx.ttype = "Deposit" ∨ tx.ttype = "Earning" ∨
      tx.ttype = "Investment")
    (hfid : tx.fundId = some fid) (hf : findFund s fid = some fund) :
    deleteRevertFund s tx =
      updateFund s { fund with balance := fund.balance - tx.amount } := by
  rcases hty with h | h | h <;> simp [deleteRevertFund, hfid, hf, h]

theorem deleteRevertMember_deposit (s : State) (tx : Transaction)
    (mid : Nat) (member : Member)
    (hty : tx.ttype = "Deposit") (hmid : tx.memberId = some mid)
    (hm : findMember s mid = some member) :
    deleteRevertMember s tx = updateMember s
      { member with
        totalContributed := member.totalContributed - tx.amount
        shares := max 0 (member.shares - (⌊tx.amount / 1000⌋ : ℤ)) } := by
  simp [deleteRevertMember, hmid, hty, hm]

theorem deleteRevertProject_noProject (s : State) (tx : Transaction)
    (hpid : tx.projectId = none) : deleteRevertProject s tx = s := by
  simp [deleteRevertProject, hpid]

/-! ## Claim C1 -/

/-- C1 counterexample: a member holds 5 shares and a completed deposit of
1000 is applied — which does not change shares — and then deleted; the
deletion's `amount / 1000` estimated-share reversal leaves the member
with 4 shares, so the round trip does not restore all affected balances
to their pre-apply values. -/
theorem deposit_delete_not_inverse_cex :
    ∃ s1 tx s2,
      addDeposit
        { funds := [{ id := 1, name := "A", ftype := "OTHER", balance := 100,
                      reconciliationStatus := "PENDING",
                      lastReconciledAt := none }],
          members := [{ id := 1, name := "m", status := "active",
                        shares := 5, totalContributed := 0 }],
          projects := [], transactions := [], nextTxId := 0 }
        1 1000 1 "dep" (some "Completed") = .ok (s1, tx) ∧
      deleteTransaction s1 tx.id = .ok s2 ∧
      (findMember s2 1).map Member.shares = some 4 := by
  refine ⟨_, _, _, rfl, rfl, ?_⟩
  norm_num [addDeposit, deleteTransaction, deleteRevertFund,
    deleteRevertMember, deleteRevertProject, findTx, findMember, findFund,
    findBy, List.find?, pushTx, updateFund, updateMember, updBy,
    optApplied, isApplied]

/-- C1 (amended): for a completed deposit, apply-then-delete restores the
fund balance and the member's `totalContributed` exactly, but the
member's shares — untouched by apply — end at
`max 0 (shares - floor(amount / 1000))`, so all affected balances are
restored only when `floor(amount / 1000) = 0` (deletion applies an
estimated-share reversal that apply never performed). -/
theorem deposit_delete_roundtrip (s : State) (mid fid : Nat) (amount : ℚ)
    (d : String) (st : Option String) (fund : Fund) (member : Member)
    (hamt : 0 < amount)
    (hf : findFund s fid = some fund) (hm : findMember s mid = some member)
    (hst : st = some "Success" ∨ st = some "Completed")
    (hfresh : ∀ u ∈ s.transactions, u.id ≠ s.nextTxId) :
    ∃ s1 tx, addDeposit s mid amount fid d st = .ok (s1, tx) ∧
      ∃ s2, deleteTransaction s1 tx.id = .ok s2 ∧
        (findFund s2 fid).map Fund.balance = some fund.balance ∧
        (findMember s2 mid).map Member.totalContributed =
          some member.totalContributed ∧
        (findMember s2 mid).map Member.shares =
          some (max 0 (member.shares - (⌊amount / 1000⌋ : ℤ))) := by
  have hkeyf : fund.id = fid := findBy_key Fund.id fid s.funds fund hf
  have hkeym : member.id = mid := findBy_key Member.id mid s.members member hm
  refine ⟨_, _, addDeposit_applied_ok s mid amount fid d st fund member
    hamt hf hm hst, ?_⟩
  set TX : Transaction :=
    { id := s.nextTxId, ttype := "Deposit", amount := amount,
      description := d, status := st.getD "Completed",
      memberId := some mid, fundId := some fid, projectId := none,
      balanceBefore := fund.balance, balanceAfter := fund.balance + amount,
      referenceNumber := none } with hTXdef
  set F1 : Fund := { fund with balance := fund.balance + amount } with hF1def
  set M1 : Member :=
    { member with totalContributed := member.totalContributed + amount }
    with hM1def
  set S1 : State := updateMember (updateFund (pushTx s TX) F1) M1 with hS1def
  have htx : findTx S1 TX.id = some TX := findTx_pushTx_fresh s TX hfresh
  have hstat : isApplied TX.status = true := by
    rcases hst with h | h <;> simp [hTXdef, h, isApplied]
  have hff1 : findFund S1 fid = some F1 :=
    findFund_updateFund_self s fid fund F1 hf hkeyf
  set F2 : Fund := { F1 with balance := F1.balance - TX.amount } with hF2def
  have hrf : deleteRevertFund S1 TX = updateFund S1 F2 :=
    deleteRevertFund_inflow S1 TX fid F1 (Or.inl rfl) rfl hff1
  have hfm1 : findMember (updateFund S1 F2) mid = some M1 :=
    findMember_updateMember_self s mid member M1 hm hkeym
  set M2 : Member :=
    { M1 with
      totalContributed := M1.totalContributed - TX.amount
      shares := max 0 (M1.shares - (⌊TX.amount / 1000⌋ : ℤ)) } with hM2def
  have hrm : deleteRevertMember (updateFund S1 F2) TX =
      updateMember (updateFund S1 F2) M2 :=
    deleteRevertMember_deposit (updateFund S1 F2) TX mid M1 rfl rfl hfm1
  have hrp : deleteRevertProject (updateMember (updateFund S1 F2) M2) TX =
      updateMember (updateFund S1 F2) M2 :=
    deleteRevertProject_noProject _ TX rfl
  have hdel : deleteTransaction S1 TX.id = .ok
      { updateMember (updateFund S1 F2) M2 with
        transactions :=
          (updateMember (updateFund S1 F2) M2).transactions.filter
            (fun t => t.id != TX.id) } := by
    simp only [deleteTransaction, htx, hstat, if_true, hrf, hrm, hrp]
  refine ⟨_, hdel, ?_, ?_, ?_⟩
  · show Option.map Fund.balance (findFund (updateFund S1 F2) fid) =
      some fund.balance
    rw [findFund_updateFund_self S1 fid F1 F2 hff1 hkeyf]
    show some (fund.balance + amount - amount) = some fund.balance
    rw [add_sub_cancel_right]
  · show Option.map Member.totalContributed
      (findMember (updateMember (updateFund S1 F2) M2) mid) =
      some member.totalContributed
    rw [findMember_updateMember_self (updateFund S1 F2) mid M1 M2 hfm1 hkeym]
    show some (member.totalContributed + amount - amount) =
      some member.totalContributed
    rw [add_sub_cancel_right]
  · show Option.map Member.shares
      (findMember (updateMember (updateFund S1 F2) M2) mid) =
      some (max 0 (member.shares - (⌊amount / 1000⌋ : ℤ)))
    rw [findMember_updateMember_self (updateFund S1 F2) mid M1 M2 hfm1 hkeym]
    rfl

/-- Witness for C1 (amended): deposit of 500 (`floor(500/1000) = 0`) on a
member with 5 shares round-trips to the original fund balance,
`totalContributed`, and shares. -/
theorem deposit_delete_roundtrip_witness :
    ∃ s1 tx, addDeposit
      { funds := [{ id := 1, name := "A", ftype := "OTHER", balance := 100,
                    reconciliationStatus := "PENDING",
                    lastReconciledAt := none }],
        members := [{ id := 1, name := "m", status := "active",
                      shares := 5, totalContributed := 20 }],
        projects := [], transactions := [], nextTxId := 0 }
      1 500 1 "dep" (some "Completed") = .ok (s1, tx) ∧
      ∃ s2, deleteTransaction s1 tx.id = .ok s2 ∧
        (findFund s2 1).map Fund.balance = some 100 ∧
        (findMember s2 1).map Member.totalContributed = some 20 ∧
        (findMember s2 1).map Member.shares = some 5 := by
  obtain ⟨s1, tx, h1, s2, h2, h3, h4, h5⟩ :=
    deposit_delete_roundtrip
      { funds := [{ id := 1, name := "A", ftype := "OTHER", balance := 100,
                    reconciliationStatus := "PENDING",
                    lastReconciledAt := none }],
        members := [{ id := 1, name := "m", status := "active",
                      shares := 5, totalContributed := 20 }],
        projects := [], transactions := [], nextTxId := 0 }
      1 1 500 "dep" (some "Completed")
      { id := 1, name := "A", ftype := "OTHER", balance := 100,
        reconciliationStatus := "PENDING", lastReconciledAt := none }
      { id := 1, name := "m", status := "active", shares := 5,
        totalContributed := 20 }
      (by norm_num) rfl rfl (Or.inr rfl) (by simp)
  refine ⟨s1, tx, h1, s2, h2, h3, h4, ?_⟩
  rw [h5]
  norm_num

/-! ## Dividend arithmetic -/

theorem memberReward_le (rate : ℚ) (m : Member) :
    memberReward rate m ≤ m.shares * rate := by
  have h : ((⌊m.shares * rate * 100⌋ : ℤ) : ℚ) ≤ m.shares * rate * 100 :=
    Int.floor_le _
  calc memberReward rate m = (⌊m.shares * rate * 100⌋ : ℤ) / 100 := rfl
    _ ≤ (m.shares * rate * 100) / 100 := by
        exact (div_le_div_iff_of_pos_right (by norm_num)).mpr h
    _ = m.shares * rate := by ring

theorem filtered_reward_sum_le (rate : ℚ) (l : List Member)
    (h : ∀ m ∈ l, 0 ≤ m.shares * rate) :
    ((l.filter (fun m => decide (0 < memberReward rate m))).map
      (memberReward rate)).sum ≤
    (l.map (fun m => m.shares * rate)).sum := by
  induction l with
  | nil => simp
  | cons a t ih =>
    have ha := h a (List.mem_cons_self a t)
    have ht : ∀ m ∈ t, 0 ≤ m.shares * rate :=
      fun m hm => h m (List.mem_cons_of_mem a hm)
    by_cases hk : 0 < memberReward rate a
    · rw [List.filter_cons_of_pos (by simpa using hk), List.map_cons,
        List.sum_cons, List.map_cons, List.sum_cons]
      exact add_le_add (memberReward_le rate a) (ih ht)
    · rw [List.filter_cons_of_neg (by simpa using hk), List.map_cons,
        List.sum_cons]
      calc ((t.filter (fun m => decide (0 < memberReward rate m))).map
            (memberReward rate)).sum ≤
          (t.map (fun m => m.shares * rate)).sum := ih ht
        _ ≤ a.shares * rate + (t.map (fun m => m.shares * rate)).sum :=
          le_add_of_nonneg_left ha

theorem activeShareholders_pos (s : State) (m : Member)
    (hm : m ∈ activeShareholders s) : 0 < m.shares := by
  have := (List.mem_filter.mp hm).2
  simp only [Bool.and_eq_true, decide_eq_true_eq] at this
  exact this.2

theorem totalActiveShares_pos (s : State)
    (htot : ((activeShareholders s).map Member.shares).sum ≠ 0) :
    0 < ((activeShareholders s).map Member.shares).sum := by
  refine lt_of_le_of_ne (List.sum_nonneg ?_) (Ne.symm htot)
  intro x hx
  obtain ⟨m, hm, rfl⟩ := List.mem_map.mp hx
  exact le_of_lt (activeShareholders_pos s m hm)

theorem reward_sum_le_amount (s : State) (amount : ℚ) (hamt : 0 < amount)
    (htot : ((activeShareholders s).map Member.shares).sum ≠ 0) :
    (((activeShareholders s).filter (fun m => decide (0 < memberReward
        (amount / ((activeShareholders s).map Member.shares).sum) m))).map
      (memberReward
        (amount / ((activeShareholders s).map Member.shares).sum))).sum ≤
      amount := by
  have hTpos := totalActiveShares_pos s htot
  have hrate : 0 < amount / ((activeShareholders s).map Member.shares).sum :=
    div_pos hamt hTpos
  have h1 := filtered_reward_sum_le
    (amount / ((activeShareholders s).map Member.shares).sum)
    (activeShareholders s)
    (fun m hm => le_of_lt (mul_pos (activeShareholders_pos s m hm) hrate))
  have h2 : ((activeShareholders s).map (fun m => m.shares *
      (amount / ((activeShareholders s).map Member.shares).sum))).sum =
      amount := by
    rw [List.sum_map_mul_right, mul_comm,
      div_mul_cancel₀ amount htot]
  calc (((activeShareholders s).filter (fun m => decide (0 < memberReward
        (amount / ((activeShareholders s).map Member.shares).sum) m))).map
      (memberReward
        (amount / ((activeShareholders s).map Member.shares).sum))).sum ≤
      ((activeShareholders s).map (fun m => m.shares *
        (amount / ((activeShareholders s).map Member.shares).sum))).sum :=
      h1
    _ = amount := h2

/-! ## Shared evaluation lemmas for distributeDividends -/

theorem distributeDividends_global_ok (s : State) (amount : ℚ) (fid : Nat)
    (fund : Fund) (d batch : String) (hamt : 0 < amount)
    (htot : ((activeShareholders s).map Member.shares).sum ≠ 0)
    (hne : (activeShareholders s).filter (fun m => decide (0 < memberReward
      (amount / ((activeShareholders s).map Member.shares).sum) m)) ≠ [])
    (hf : findFund s fid = some fund)
    (hbal : (((activeShareholders s).filter (fun m => decide (0 <
        memberReward
          (amount / ((activeShareholders s).map Member.shares).sum) m))).map
      (memberReward
        (amount / ((activeShareholders s).map Member.shares).sum))).sum ≤
      fund.balance) :
    distributeDividends s "Global" amount none (some fid) d batch =
      .ok (insertMany
        (updateFund s { fund with balance := fund.balance -
          (((activeShareholders s).filter (fun m => decide (0 < memberReward
            (amount / ((activeShareholders s).map Member.shares).sum) m))).map
            (memberReward
              (amount / ((activeShareholders s).map Member.shares).sum))).sum })
        (((activeShareholders s).filter (fun m => decide (0 < memberReward
          (amount / ((activeShareholders s).map Member.shares).sum) m))).map
          (fun m =>
            { id := 0, ttype := "Dividend",
              amount := memberReward
                (amount / ((activeShareholders s).map Member.shares).sum) m,
              description := d, status := "Success",
              memberId := some m.id, fundId := some fid, projectId := none,
              balanceBefore := 0, balanceAfter := 0,
              referenceNumber := some batch })),
        ((activeShareholders s).filter (fun m => decide (0 < memberReward
          (amount / ((activeShareholders s).map Member.shares).sum) m))).map
          (fun m =>
            { id := 0, ttype := "Dividend",
              amount := memberReward
                (amount / ((activeShareholders s).map Member.shares).sum) m,
              description := d, status := "Success",
              memberId := some m.id, fundId := some fid, projectId := none,
              balanceBefore := 0, balanceAfter := 0,
              referenceNumber := some batch })) := by
  simp [distributeDividends, not_le.mpr hamt, htot, hne, hf,
    not_lt.mpr hbal, List.map_eq_nil, List.isEmpty_eq_false]

theorem distributeDividends_project_ok (s : State) (amount : ℚ) (pid : Nat)
    (project : Project) (d batch : String) (hamt : 0 < amount)
    (htot : ((activeShareholders s).map Member.shares).sum ≠ 0)
    (hne : (activeShareholders s).filter (fun m => decide (0 < memberReward
      (amount / ((activeShareholders s).map Member.shares).sum) m)) ≠ [])
    (hp : findProject s pid = some project)
    (hbal : (((activeShareholders s).filter (fun m => decide (0 <
        memberReward
          (amount / ((activeShareholders s).map Member.shares).sum) m))).map
      (memberReward
        (amount / ((activeShareholders s).map Member.shares).sum))).sum ≤
      project.currentFundBalance) :
    distributeDividends s "Project" amount (some pid) none d batch =
      .ok (insertMany
        (updateProject s { project with currentFundBalance :=
          project.currentFundBalance -
          (((activeShareholders s).filter (fun m => decide (0 < memberReward
            (amount / ((activeShareholders s).map Member.shares).sum) m))).map
            (memberReward
              (amount / ((activeShareholders s).map Member.shares).sum))).sum })
        (((activeShareholders s).filter (fun m => decide (0 < memberReward
          (amount / ((activeShareholders s).map Member.shares).sum) m))).map
          (fun m =>
            { id := 0, ttype := "Dividend",
              amount := memberReward
                (amount / ((activeShareholders s).map Member.shares).sum) m,
              description := d, status := "Success",
              memberId := some m.id, fundId := none, projectId := some pid,
              balanceBefore := 0, balanceAfter := 0,
              referenceNumber := some batch })),
        ((activeShareholders s).filter (fun m => decide (0 < memberReward
          (amount / ((activeShareholders s).map Member.shares).sum) m))).map
          (fun m =>
            { id := 0, ttype := "Dividend",
              amount := memberReward
                (amount / ((activeShareholders s).map Member.shares).sum) m,
              description := d, status := "Success",
              memberId := some m.id, fundId := none, projectId := some pid,
              balanceBefore := 0, balanceAfter := 0,
              referenceNumber := some batch })) := by
  simp [distributeDividends, not_le.mpr hamt, htot, hne, hp,
    not_lt.mpr hbal, List.map_eq_nil, List.isEmpty_eq_false]

/-! ## Claim C3 -/

/-- C3: Dividend distribution over all active members with positive
shares computes `ratePerShare = amount / totalActiveShares`; every
recipient's transaction carries exactly
`floor(shares * ratePerShare * 100) / 100` (members whose reward rounds
to zero are skipped, i.e. given 0); the sum of the rewards never exceeds
the requested amount; and the source pool — fund balance for a Global
distribution, project `currentFundBalance` for a Project one — is
debited by exactly that sum (`totalDisbursed`), not by the requested
amount. -/
theorem distributeDividends_exact :
    (∀ s amount fid fund d batch, 0 < amount →
      ((activeShareholders s).map Member.shares).sum ≠ 0 →
      (activeShareholders s).filter (fun m => decide (0 < memberReward
        (amount / ((activeShareholders s).map Member.shares).sum) m)) ≠ [] →
      findFund s fid = some fund →
      (((activeShareholders s).filter (fun m => decide (0 < memberReward
          (amount / ((activeShareholders s).map Member.shares).sum) m))).map
        (memberReward
          (amount / ((activeShareholders s).map Member.shares).sum))).sum ≤
        fund.balance →
      ∃ s' txs,
        distributeDividends s "Global" amount none (some fid) d batch =
          .ok (s', txs) ∧
        txs.map (fun t => (t.memberId, t.amount)) =
          ((activeShareholders s).filter (fun m => decide (0 < memberReward
            (amount / ((activeShareholders s).map Member.shares).sum) m))).map
            (fun m => (some m.id, memberReward
              (amount / ((activeShareholders s).map Member.shares).sum) m)) ∧
        (txs.map Transaction.amount).sum ≤ amount ∧
        (findFund s' fid).map Fund.balance =
          some (fund.balance - (txs.map Transaction.amount).sum)) ∧
    (∀ s amount pid project d batch, 0 < amount →
      ((activeShareholders s).map Member.shares).sum ≠ 0 →
      (activeShareholders s).filter (fun m => decide (0 < memberReward
        (amount / ((activeShareholders s).map Member.shares).sum) m)) ≠ [] →
      findProject s pid = some project →
      (((activeShareholders s).filter (fun m => decide (0 < memberReward
          (amount / ((activeShareholders s).map Member.shares).sum) m))).map
        (memberReward
          (amount / ((activeShareholders s).map Member.shares).sum))).sum ≤
        project.currentFundBalance →
      ∃ s' txs,
        distributeDividends s "Project" amount (some pid) none d batch =
          .ok (s', txs) ∧
        txs.map (fun t => (t.memberId, t.amount)) =
          ((activeShareholders s).filter (fun m => decide (0 < memberReward
            (amount / ((activeShareholders s).map Member.shares).sum) m))).map
            (fun m => (some m.id, memberReward
              (amount / ((activeShareholders s).map Member.shares).sum) m)) ∧
        (txs.map Transaction.amount).sum ≤ amount ∧
        (findProject s' pid).map Project.currentFundBalance =
          some (project.currentFundBalance -
            (txs.map Transaction.amount).sum)) := by
  constructor
  · intro s amount fid fund d batch hamt htot hne hf hbal
    have hkey : fund.id = fid := findBy_key Fund.id fid s.funds fund hf
    have heq : distributeDividends s "Global" amount none (some fid) d batch =
        .ok (insertMany
          (updateFund s { fund with balance := fund.balance -
            (((activeShareholders s).filter (fun m => decide (0 < memberReward
              (amount / ((activeShareholders s).map Member.shares).sum) m))).map
              (memberReward
                (amount / ((activeShareholders s).map Member.shares).sum))).sum })
          (((activeShareholders s).filter (fun m => decide (0 < memberReward
            (amount / ((activeShareholders s).map Member.shares).sum) m))).map
            (fun m =>
              { id := 0, ttype := "Dividend",
                amount := memberReward
                  (amount / ((activeShareholders s).map Member.shares).sum) m,
                description := d, status := "Success",
                memberId := some m.id, fundId := some fid, projectId := none,
                balanceBefore := 0, balanceAfter := 0,
                referenceNumber := some batch })),
          ((activeShareholders s).filter (fun m => decide (0 < memberReward
            (amount / ((activeShareholders s).map Member.shares).sum) m))).map
            (fun m =>
              { id := 0, ttype := "Dividend",
                amount := memberReward
                  (amount / ((activeShareholders s).map Member.shares).sum) m,
                description := d, status := "Success",
                memberId := some m.id, fundId := some fid, projectId := none,
                balanceBefore := 0, balanceAfter := 0,
                referenceNumber := some batch })) :=
      distributeDividends_global_ok s amount fid fund d batch hamt htot hne
        hf hbal
    refine ⟨_, _, heq, ?_, ?_, ?_⟩
    · rw [List.map_map]
      rfl
    · rw [List.map_map]
      exact reward_sum_le_amount s amount hamt htot
    · rw [List.map_map]
      show Option.map Fund.balance (findFund (insertMany (updateFund s _) _)
        fid) = _
      rw [findFund_insertMany, findFund_updateFund_self s fid fund
        { fund with balance := fund.balance -
          (((activeShareholders s).filter (fun m => decide (0 < memberReward
            (amount / ((activeShareholders s).map Member.shares).sum) m))).map
            (memberReward
              (amount / ((activeShareholders s).map Member.shares).sum))).sum }
        hf hkey]
      rfl
  · intro s amount pid project d batch hamt htot hne hp hbal
    have hkey : project.id = pid :=
      findBy_key Project.id pid s.projects project hp
    have heq : distributeDividends s "Project" amount (some pid) none d batch =
        .ok (insertMany
          (updateProject s { project with currentFundBalance :=
            project.currentFundBalance -
            (((activeShareholders s).filter (fun m => decide (0 < memberReward
              (amount / ((activeShareholders s).map Member.shares).sum) m))).map
              (memberReward
                (amount / ((activeShareholders s).map Member.shares).sum))).sum })
          (((activeShareholders s).filter (fun m => decide (0 < memberReward
            (amount / ((activeShareholders s).map Member.shares).sum) m))).map
            (fun m =>
              { id := 0, ttype := "Dividend",
                amount := memberReward
                  (amount / ((activeShareholders s).map Member.shares).sum) m,
                description := d, status := "Success",
                memberId := some m.id, fundId := none, projectId := some pid,
                balanceBefore := 0, balanceAfter := 0,
                referenceNumber := some batch })),
          ((activeShareholders s).filter (fun m => decide (0 < memberReward
            (amount / ((activeShareholders s).map Member.shares).sum) m))).map
            (fun m =>
              { id := 0, ttype := "Dividend",
                amount := memberReward
                  (amount / ((activeShareholders s).map Member.shares).sum) m,
                description := d, status := "Success",
                memberId := some m.id, fundId := none, projectId := some pid,
                balanceBefore := 0, balanceAfter := 0,
                referenceNumber := some batch })) :=
      distributeDividends_project_ok s amount pid project d batch hamt htot
        hne hp hbal
    refine ⟨_, _, heq, ?_, ?_, ?_⟩
    · rw [List.map_map]
      rfl
    · rw [List.map_map]
      exact reward_sum_le_amount s amount hamt htot
    · rw [List.map_map]
      show Option.map Project.currentFundBalance
        (findProject (insertMany (updateProject s _) _) pid) = _
      rw [findProject_insertMany, findProject_updateProject_self s pid project
        { project with currentFundBalance := project.currentFundBalance -
          (((activeShareholders s).filter (fun m => decide (0 < memberReward
            (amount / ((activeShareholders s).map Member.shares).sum) m))).map
            (memberReward
              (amount / ((activeShareholders s).map Member.shares).sum))).sum }
        hp hkey]
      rfl

/-- Witness for C3, the spec's own scenario: three active members with
shares 10, 20, 30 and a Global pool of 100 → rewards 16.66, 33.33, 50.00
summing to 99.99; the fund is debited by 99.99 only, leaving 0.01. -/
theorem distributeDividends_exact_witness :
    ∃ s' txs,
      distributeDividends
        { funds := [{ id := 1, name := "A", ftype := "OTHER", balance := 100,
                      reconciliationStatus := "PENDING",
                      lastReconciledAt := none }],
          members := [{ id := 1, name := "a", status := "active",
                        shares := 10, totalContributed := 0 },
                      { id := 2, name := "b", status := "active",
                        shares := 20, totalContributed := 0 },
                      { id := 3, name := "c", status := "active",
                        shares := 30, totalContributed := 0 }],
          projects := [], transactions := [], nextTxId := 0 }
        "Global" 100 none (some 1) "d" "B" = .ok (s', txs) ∧
      (txs.map Transaction.amount).sum = 9999 / 100 ∧
      (findFund s' 1).map Fund.balance = some (1 / 100) := by
  obtain ⟨s', txs, h1, h2, h3, h4⟩ :=
    distributeDividends_exact.1
      { funds := [{ id := 1, name := "A", ftype := "OTHER", balance := 100,
                    reconciliationStatus := "PENDING",
                    lastReconciledAt := none }],
        members := [{ id := 1, name := "a", status := "active",
                      shares := 10, totalContributed := 0 },
                    { id := 2, name := "b", status := "active",
                      shares := 20, totalContributed := 0 },
                    { id := 3, name := "c", status := "active",
                      shares := 30, totalContributed := 0 }],
        projects := [], transactions := [], nextTxId := 0 }
      100 1
      { id := 1, name := "A", ftype := "OTHER", balance := 100,
        reconciliationStatus := "PENDING", lastReconciledAt := none }
      "d" "B" (by norm_num)
      (by norm_num [activeShareholders])
      (by norm_num [activeShareholders, memberReward]
          exact List.cons_ne_nil _ _)
      rfl
      (by norm_num [activeShareholders, memberReward])
  have h5 : txs.map Transaction.amount =
      (txs.map (fun t => (t.memberId, t.amount))).map Prod.snd := by
    rw [List.map_map]
    rfl
  rw [h2] at h5
  have h6 : (txs.map Transaction.amount).sum = 9999 / 100 := by
    rw [h5]
    norm_num [activeShareholders, memberReward]
  refine ⟨s', txs, h1, h6, ?_⟩
  rw [h4, h6]
  norm_num

/-! ## Claim C8 -/

/-- C8: For a positive requested amount and an existing source pool,
dividend distribution fails — aborting with no state change — exactly
when `totalActiveShares = 0`, or every computed per-member reward rounds
to zero (the recipient list is empty), or the source pool's balance is
less than `totalDisbursed`; stated for both Global (fund) and Project
pools. -/
theorem distributeDividends_failure_iff :
    (∀ s amount fid fund d batch, 0 < amount →
      findFund s fid = some fund →
      (isError (distributeDividends s "Global" amount none (some fid) d
          batch) = true ↔
        (((activeShareholders s).map Member.shares).sum = 0 ∨
         (activeShareholders s).filter (fun m => decide (0 < memberReward
           (amount / ((activeShareholders s).map Member.shares).sum) m)) =
           [] ∨
         fund.balance <
           (((activeShareholders s).filter (fun m => decide (0 < memberReward
             (amount / ((activeShareholders s).map Member.shares).sum) m))).map
             (memberReward
               (amount /
                 ((activeShareholders s).map Member.shares).sum))).sum))) ∧
    (∀ s amount pid project d batch, 0 < amount →
      findProject s pid = some project →
      (isError (distributeDividends s "Project" amount (some pid) none d
          batch) = true ↔
        (((activeShareholders s).map Member.shares).sum = 0 ∨
         (activeShareholders s).filter (fun m => decide (0 < memberReward
           (amount / ((activeShareholders s).map Member.shares).sum) m)) =
           [] ∨
         project.currentFundBalance <
           (((activeShareholders s).filter (fun m => decide (0 < memberReward
             (amount / ((activeShareholders s).map Member.shares).sum) m))).map
             (memberReward
               (amount /
                 ((activeShareholders s).map Member.shares).sum))).sum))) := by
  constructor
  · intro s amount fid fund d batch hamt hf
    by_cases h1 : ((activeShareholders s).map Member.shares).sum = 0
    · simp [distributeDividends, not_le.mpr hamt, h1, isError]
    · by_cases h2 : (activeShareholders s).filter (fun m =>
          decide (0 < memberReward
            (amount / ((activeShareholders s).map Member.shares).sum) m)) = []
      · simp [distributeDividends, not_le.mpr hamt, h1, h2, isError,
          List.isEmpty_eq_true, List.map_eq_nil]
      · by_cases h3 : fund.balance <
            (((activeShareholders s).filter (fun m => decide (0 < memberReward
              (amount / ((activeShareholders s).map Member.shares).sum) m))).map
              (memberReward
                (amount / ((activeShareholders s).map Member.shares).sum))).sum
        · simp [distributeDividends, not_le.mpr hamt, h1, h2, h3, hf,
            isError, List.isEmpty_eq_true, List.map_eq_nil]
        · simp [distributeDividends, not_le.mpr hamt, h1, h2, h3, hf,
            isError, List.isEmpty_eq_true, List.map_eq_nil]
  · intro s amount pid project d batch hamt hp
    by_cases h1 : ((activeShareholders s).map Member.shares).sum = 0
    · simp [distributeDividends, not_le.mpr hamt, h1, isError]
    · by_cases h2 : (activeShareholders s).filter (fun m =>
          decide (0 < memberReward
            (amount / ((activeShareholders s).map Member.shares).sum) m)) = []
      · simp [distributeDividends, not_le.mpr hamt, h1, h2, isError,
          List.isEmpty_eq_true, List.map_eq_nil]
      · by_cases h3 : project.currentFundBalance <
            (((activeShareholders s).filter (fun m => decide (0 < memberReward
              (amount / ((activeShareholders s).map Member.shares).sum) m))).map
              (memberReward
                (amount / ((activeShareholders s).map Member.shares).sum))).sum
        · simp [distributeDividends, not_le.mpr hamt, h1, h2, h3, hp,
            isError, List.isEmpty_eq_true, List.map_eq_nil]
        · simp [distributeDividends, not_le.mpr hamt, h1, h2, h3, hp,
            isError, List.isEmpty_eq_true, List.map_eq_nil]

/-- Witness for C8: with one active member holding 1 share, a requested
amount of 2 but a fund balance of 1, the distribution fails (the pool
cannot cover `totalDisbursed = 2`); and with an inactive-only membership
it fails with zero total shares. -/
theorem distributeDividends_failure_iff_witness :
    (isError (distributeDividends
      { funds := [{ id := 1, name := "A", ftype := "OTHER", balance := 1,
                    reconciliationStatus := "PENDING",
                    lastReconciledAt := none }],
        members := [{ id := 1, name := "a", status := "active",
                      shares := 1, totalContributed := 0 }],
        projects := [], transactions := [], nextTxId := 0 }
      "Global" 2 none (some 1) "d" "B") = true) ∧
    (isError (distributeDividends
      { funds := [{ id := 1, name := "A", ftype := "OTHER", balance := 1,
                    reconciliationStatus := "PENDING",
                    lastReconciledAt := none }],
        members := [{ id := 1, name := "a", status := "inactive",
                      shares := 1, totalContributed := 0 }],
        projects := [], transactions := [], nextTxId := 0 }
      "Global" 2 none (some 1) "d" "B") = true) := by
  constructor
  · refine (distributeDividends_failure_iff.1
      { funds := [{ id := 1, name := "A", ftype := "OTHER", balance := 1,
                    reconciliationStatus := "PENDING",
                    lastReconciledAt := none }],
        members := [{ id := 1, name := "a", status := "active",
                      shares := 1, totalContributed := 0 }],
        projects := [], transactions := [], nextTxId := 0 }
      2 1
      { id := 1, name := "A", ftype := "OTHER", balance := 1,
        reconciliationStatus := "PENDING", lastReconciledAt := none }
      "d" "B" (by norm_num) rfl).mpr ?_
    right; right
    norm_num [activeShareholders, memberReward]
  · refine (distributeDividends_failure_iff.1
      { funds := [{ id := 1, name := "A", ftype := "OTHER", balance := 1,
                    reconciliationStatus := "PENDING",
                    lastReconciledAt := none }],
        members := [{ id := 1, name := "a", status := "inactive",
                      shares := 1, totalContributed := 0 }],
        projects := [], transactions := [], nextTxId := 0 }
      2 1
      { id := 1, name := "A", ftype := "OTHER", balance := 1,
        reconciliationStatus := "PENDING", lastReconciledAt := none }
      "d" "B" (by norm_num) rfl).mpr ?_
    left
    simp [activeShareholders]

/-! ## Claim C4 -/

/-- C4 counterexample: a project with `linkedFundId = 1` and
`currentFundBalance = 50` equal to the linked fund's balance 50; a
Project-type dividend distribution of 10 debits the project's
`currentFundBalance` to 40 while the linked fund's balance stays 50 — the
operation changes one of the two without changing the other, refuting the
invariant-preservation claim. -/
theorem project_dividend_breaks_fund_link_cex :
    ∃ s' txs,
      distributeDividends
        { funds := [{ id := 1, name := "A", ftype := "PROJECT",
                      balance := 50, reconciliationStatus := "PENDING",
                      lastReconciledAt := none }],
          members := [{ id := 1, name := "a", status := "active",
                        shares := 10, totalContributed := 0 }],
          projects := [{ id := 1, title := "T", linkedFundId := some 1,
                         currentFundBalance := 50, totalEarnings := 0,
                         totalExpenses := 0, updates := [] }],
          transactions := [], nextTxId := 0 }
        "Project" 10 (some 1) none "d" "B" = .ok (s', txs) ∧
      (findProject s' 1).map Project.currentFundBalance = some 40 ∧
      (findFund s' 1).map Fund.balance = some 50 := by
  have heq := distributeDividends_project_ok
    { funds := [{ id := 1, name := "A", ftype := "PROJECT", balance := 50,
                  reconciliationStatus := "PENDING",
                  lastReconciledAt := none }],
      members := [{ id := 1, name := "a", status := "active",
                    shares := 10, totalContributed := 0 }],
      projects := [{ id := 1, title := "T", linkedFundId := some 1,
                     currentFundBalance := 50, totalEarnings := 0,
                     totalExpenses := 0, updates := [] }],
      transactions := [], nextTxId := 0 }
    10 1
    { id := 1, title := "T", linkedFundId := some 1,
      currentFundBalance := 50, totalEarnings := 0, totalExpenses := 0,
      updates := [] }
    "d" "B" (by norm_num)
    (by norm_num [activeShareholders])
    (by norm_num [activeShareholders, memberReward])
    rfl
    (by norm_num [activeShareholders, memberReward])
  refine ⟨_, _, heq, ?_, rfl⟩
  norm_num [findProject, findBy, insertMany, updateProject, updBy,
    List.find?, activeShareholders, memberReward]

/-- C4 (amended): expenses and earnings change the fund balance and the
referenced project's `currentFundBalance` by equal deltas (−amount and
+amount respectively), so they preserve the
`currentFundBalance = linked fund balance` invariant whenever the
operation is drawn on the project's linked fund; but Project-type
dividend distribution debits only the project's `currentFundBalance` by
`totalDisbursed` and changes no fund balance at all, so it does not
preserve the invariant. -/
theorem fund_project_delta_coupling :
    (∀ s amount fid d c pid mid date fund project,
      findFund s fid = some fund → findProject s pid = some project →
      amount ≤ fund.balance →
      ∃ s' tx, addExpense s amount fid d c (some pid) mid date =
          .ok (s', tx) ∧
        (findFund s' fid).map Fund.balance = some (fund.balance - amount) ∧
        (findProject s' pid).map Project.currentFundBalance =
          some (project.currentFundBalance - amount)) ∧
    (∀ s amount fid d c pid mid date fund project, 0 < amount →
      findFund s fid = some fund → findProject s pid = some project →
      ∃ s' tx, addEarning s amount fid d c (some pid) mid date =
          .ok (s', tx) ∧
        (findFund s' fid).map Fund.balance = some (fund.balance + amount) ∧
        (findProject s' pid).map Project.currentFundBalance =
          some (project.currentFundBalance + amount)) ∧
    (∀ s amount pid project d batch, 0 < amount →
      ((activeShareholders s).map Member.shares).sum ≠ 0 →
      (activeShareholders s).filter (fun m => decide (0 < memberReward
        (amount / ((activeShareholders s).map Member.shares).sum) m)) ≠ [] →
      findProject s pid = some project →
      (((activeShareholders s).filter (fun m => decide (0 < memberReward
          (amount / ((activeShareholders s).map Member.shares).sum) m))).map
        (memberReward
          (amount / ((activeShareholders s).map Member.shares).sum))).sum ≤
        project.currentFundBalance →
      ∃ s' txs,
        distributeDividends s "Project" amount (some pid) none d batch =
          .ok (s', txs) ∧
        (∀ k, findFund s' k = findFund s k) ∧
        (findProject s' pid).map Project.currentFundBalance =
          some (project.currentFundBalance -
            (((activeShareholders s).filter (fun m => decide (0 <
                memberReward (amount /
                  ((activeShareholders s).map Member.shares).sum) m))).map
              (memberReward (amount /
                ((activeShareholders s).map Member.shares).sum))).sum)) := by
  refine ⟨?_, ?_, ?_⟩
  · intro s amount fid d c pid mid date fund project hf hp hbal
    have hkey : fund.id = fid := findBy_key Fund.id fid s.funds fund hf
    have hpkey : project.id = pid :=
      findBy_key Project.id pid s.projects project hp
    have hguard : (Option.isNone (some pid) && fund.ftype == "PROJECT") =
        false := by simp
    simp only [addExpense, hf, hguard, Bool.false_eq_true, if_false,
      if_neg (not_lt.mpr hbal), Option.bind, hp]
    refine ⟨_, _, rfl, ?_, ?_⟩
    · have h1 : findFund (updateProject s
          { project with
            currentFundBalance := project.currentFundBalance - amount
            totalExpenses := project.totalExpenses + amount
            updates := project.updates ++
              [{ utype := "Expense", amount := amount, description := d,
                 balanceBefore := project.currentFundBalance,
                 balanceAfter := project.currentFundBalance - amount }] })
          fid = some fund := hf
      rw [findFund_pushTx, findFund_updateFund_self _ fid fund
        { fund with balance := fund.balance - amount } h1 hkey]
      rfl
    · rw [findProject_pushTx, findProject_updateFund,
        findProject_updateProject_self s pid project
          { project with
            currentFundBalance := project.currentFundBalance - amount
            totalExpenses := project.totalExpenses + amount
            updates := project.updates ++
              [{ utype := "Expense", amount := amount, description := d,
                 balanceBefore := project.currentFundBalance,
                 balanceAfter := project.currentFundBalance - amount }] }
          hp hpkey]
      rfl
  · intro s amount fid d c pid mid date fund project hamt hf hp
    have hkey : fund.id = fid := findBy_key Fund.id fid s.funds fund hf
    have hpkey : project.id = pid :=
      findBy_key Project.id pid s.projects project hp
    have hp1 : findProject
        (updateFund s { fund with balance := fund.balance + amount }) pid =
        some project := hp
    simp only [addEarning, if_neg (not_le.mpr hamt), hf, Option.bind, hp,
      hp1]
    refine ⟨_, _, rfl, ?_, ?_⟩
    · show Option.map Fund.balance
        (findFund (updateFund s { fund with balance := fund.balance + amount })
          fid) = some (fund.balance + amount)
      rw [findFund_updateFund_self s fid fund
        { fund with balance := fund.balance + amount } hf hkey]
      rfl
    · rw [findProject_pushTx,
        findProject_updateProject_self _ pid project
          { project with
            currentFundBalance := project.currentFundBalance + amount
            totalEarnings := project.totalEarnings + amount
            updates := project.updates ++
              [{ utype := "Earning", amount := amount, description := d,
                 balanceBefore := project.currentFundBalance,
                 balanceAfter := project.currentFundBalance + amount }] }
          hp1 hpkey]
      rfl
  · intro s amount pid project d batch hamt htot hne hp hbal
    have hpkey : project.id = pid :=
      findBy_key Project.id pid s.projects project hp
    refine ⟨_, _, distributeDividends_project_ok s amount pid project d batch
      hamt htot hne hp hbal, fun k => rfl, ?_⟩
    rw [findProject_insertMany, findProject_updateProject_self s pid project
      { project with currentFundBalance := project.currentFundBalance -
        (((activeShareholders s).filter (fun m => decide (0 < memberReward
          (amount / ((activeShareholders s).map Member.shares).sum) m))).map
          (memberReward
            (amount / ((activeShareholders s).map Member.shares).sum))).sum }
      hp hpkey]
    rfl

/-- Witness for C4 (amended): an earning of 30 on fund balance 100 and
project balance 80 moves both by +30 (fund 130, project 110). -/
theorem fund_project_delta_coupling_witness :
    ∃ s' tx, addEarning
      { funds := [{ id := 1, name := "A", ftype := "OTHER", balance := 100,
                    reconciliationStatus := "PENDING",
                    lastReconciledAt := none }],
        members := [],
        projects := [{ id := 4, title := "T", linkedFundId := some 1,
                       currentFundBalance := 80, totalEarnings := 0,
                       totalExpenses := 0, updates := [] }],
        transactions := [], nextTxId := 0 }
      30 1 "d" "Income" (some 4) none 0 = .ok (s', tx) ∧
      (findFund s' 1).map Fund.balance = some 130 ∧
      (findProject s' 4).map Project.currentFundBalance = some 110 := by
  obtain ⟨s', tx, h1, h2, h3⟩ :=
    fund_project_delta_coupling.2.1
      { funds := [{ id := 1, name := "A", ftype := "OTHER", balance := 100,
                    reconciliationStatus := "PENDING",
                    lastReconciledAt := none }],
        members := [],
        projects := [{ id := 4, title := "T", linkedFundId := some 1,
                       currentFundBalance := 80, totalEarnings := 0,
                       totalExpenses := 0, updates := [] }],
        transactions := [], nextTxId := 0 }
      30 1 "d" "Income" 4 none 0
      { id := 1, name := "A", ftype := "OTHER", balance := 100,
        reconciliationStatus := "PENDING", lastReconciledAt := none }
      { id := 4, title := "T", linkedFundId := some 1,
        currentFundBalance := 80, totalEarnings := 0, totalExpenses := 0,
        updates := [] }
      (by norm_num) rfl rfl
  refine ⟨s', tx, h1, ?_, ?_⟩
  · rw [h2]; norm_num
  · rw [h3]; norm_num

/-! ## Claim C5 -/

/-- Characterization of the per-recipient credit loop: with no
self-transfer and every target existing and active, the loop succeeds,
touches only member documents of listed targets, and — when targets are
pairwise distinct — credits each exactly its listed amount and shares. -/
theorem equityCreditLoop_ok (fromId : Nat) (sn rs batch : String) :
    ∀ (ts : List EquityTransfer) (s : State),
    (∀ t ∈ ts, t.toMemberId ≠ fromId) →
    (∀ t ∈ ts, ∃ m, findMember s t.toMemberId = some m ∧
      m.status = "active") →
    ∃ s' recs, equityCreditLoop fromId sn rs batch s ts = .ok (s', recs) ∧
      s'.funds = s.funds ∧ s'.projects = s.projects ∧
      s'.transactions = s.transactions ∧ s'.nextTxId = s.nextTxId ∧
      (∀ k, (∀ t ∈ ts, t.toMemberId ≠ k) →
        findMember s' k = findMember s k) ∧
      (ts.Pairwise (fun a b => a.toMemberId ≠ b.toMemberId) →
        ∀ t ∈ ts, ∀ m, findMember s t.toMemberId = some m →
          findMember s' t.toMemberId = some
            { m with totalContributed := m.totalContributed + t.amount,
                     shares := m.shares + t.shares }) := by
  intro ts
  induction ts with
  | nil =>
    intro s hne hex
    exact ⟨s, [], rfl, rfl, rfl, rfl, rfl, fun k _ => rfl,
      fun _ t ht => absurd ht (List.not_mem_nil t)⟩
  | cons t rest ih =>
    intro s hne hex
    have htne : t.toMemberId ≠ fromId := hne t (List.mem_cons_self t rest)
    obtain ⟨target, htm, hstatus⟩ := hex t (List.mem_cons_self t rest)
    have hkey : target.id = t.toMemberId :=
      findBy_key Member.id t.toMemberId s.members target htm
    have hexr : ∀ u ∈ rest, ∃ m,
        findMember (updateMember s
          { target with
            totalContributed := target.totalContributed + t.amount,
            shares := target.shares + t.shares }) u.toMemberId = some m ∧
        m.status = "active" := by
      intro u hu
      by_cases hcase : u.toMemberId = t.toMemberId
      · refine ⟨{ target with
          totalContributed := target.totalContributed + t.amount,
          shares := target.shares + t.shares }, ?_, hstatus⟩
        rw [hcase]
        exact findMember_updateMember_self s t.toMemberId target _ htm hkey
      · obtain ⟨m, hm, hms⟩ := hex u (List.mem_cons_of_mem t hu)
        refine ⟨m, ?_, hms⟩
        rw [findMember_updateMember_ne s u.toMemberId
          { target with
            totalContributed := target.totalContributed + t.amount,
            shares := target.shares + t.shares }
          (fun hc => hcase (hc.symm.trans hkey))]
        exact hm
    obtain ⟨s2, recs, heq2, hfu, hpr, htr, hnx, hfr, hcr⟩ :=
      ih (updateMember s
          { target with
            totalContributed := target.totalContributed + t.amount,
            shares := target.shares + t.shares })
        (fun u hu => hne u (List.mem_cons_of_mem t hu)) hexr
    refine ⟨s2,
      { id := 0, ttype := "Equity-Transfer", amount := t.amount,
        description := "Equity Migration: Received from " ++ sn ++
          " [Reference: " ++ rs ++ "]",
        status := "Success", memberId := some t.toMemberId,
        fundId := none, projectId := none, balanceBefore := 0,
        balanceAfter := 0, referenceNumber := some batch } :: recs,
      ?_, hfu, hpr, htr, hnx, ?_, ?_⟩
    · simp only [equityCreditLoop, if_neg htne, htm,
        if_neg (show ¬(target.status ≠ "active") from fun hc => hc hstatus),
        heq2]
    · intro k hk
      rw [hfr k (fun u hu => hk u (List.mem_cons_of_mem t hu)),
        findMember_updateMember_ne s k
          { target with
            totalContributed := target.totalContributed + t.amount,
            shares := target.shares + t.shares }
          (fun hc => (hk t (List.mem_cons_self t rest))
            ((hkey.symm.trans hc)))]
    · intro hpw u hu m hm
      have hpw' := List.pairwise_cons.mp hpw
      rcases List.mem_cons.mp hu with heq | hur
      · rw [heq] at hm ⊢
        have hmt : m = target := Option.some.inj (hm.symm.trans htm)
        rw [hmt, hfr t.toMemberId (fun v hv => (hpw'.1 v hv).symm),
          findMember_updateMember_self s t.toMemberId target
            { target with
              totalContributed := target.totalContributed + t.amount,
              shares := target.shares + t.shares } htm hkey]
      · have hm1 : findMember (updateMember s
            { target with
              totalContributed := target.totalContributed + t.amount,
              shares := target.shares + t.shares }) u.toMemberId = some m := by
          rw [findMember_updateMember_ne s u.toMemberId
            { target with
              totalContributed := target.totalContributed + t.amount,
              shares := target.shares + t.shares }
            (fun hc => (hpw'.1 u hur) (hkey.symm.trans hc))]
          exact hm
        exact hcr hpw'.2 u hur m hm1

/-- C5: Equity transfer is zero-sum and auto-deactivates exactly at
zero: for every valid batch (nonempty, within the source's holdings, no
self-transfer, all targets existing and active), the source member's
`totalContributed` before equals after plus the transferred sum, likewise
for shares; each (pairwise-distinct) recipient is credited exactly its
listed amount and shares; and the source's status is set to `'inactive'`
iff both holdings reach exactly zero (otherwise it is left unchanged). -/
theorem transferEquity_zero_sum (s : State) (fromId : Nat)
    (transfers : List EquityTransfer) (reason batch : String) (src : Member)
    (hne : transfers ≠ [])
    (hsrc : findMember s fromId = some src)
    (hamt : (transfers.map EquityTransfer.amount).sum ≤ src.totalContributed)
    (hsh : (transfers.map EquityTransfer.shares).sum ≤ src.shares)
    (hnself : ∀ t ∈ transfers, t.toMemberId ≠ fromId)
    (hex : ∀ t ∈ transfers, ∃ m, findMember s t.toMemberId = some m ∧
      m.status = "active") :
    ∃ s', transferEquity s fromId transfers reason batch = .ok s' ∧
      (∃ src', findMember s' fromId = some src' ∧
        src.totalContributed = src'.totalContributed +
          (transfers.map EquityTransfer.amount).sum ∧
        src.shares = src'.shares +
          (transfers.map EquityTransfer.shares).sum ∧
        (src'.totalContributed = 0 ∧ src'.shares = 0 →
          src'.status = "inactive") ∧
        (¬(src'.totalContributed = 0 ∧ src'.shares = 0) →
          src'.status = src.status)) ∧
      (transfers.Pairwise (fun a b => a.toMemberId ≠ b.toMemberId) →
        ∀ t ∈ transfers, ∀ m, findMember s t.toMemberId = some m →
          findMember s' t.toMemberId = some
            { m with totalContributed := m.totalContributed + t.amount,
                     shares := m.shares + t.shares }) := by
  have hni : transfers.isEmpty = false := List.isEmpty_eq_false.mpr hne
  have hkeysrc : src.id = fromId :=
    findBy_key Member.id fromId s.members src hsrc
  obtain ⟨s1, recs, hloop, hfu, hpr, htr, hnx, hfr, hcr⟩ :=
    equityCreditLoop_ok fromId src.name reason batch transfers s hnself hex
  have hsrc1 : findMember (insertMany s1 recs) fromId = some src := by
    rw [findMember_insertMany, hfr fromId hnself]
    exact hsrc
  have heqq : transferEquity s fromId transfers reason batch = .ok
      (pushTx
        (updateMember (insertMany s1 recs)
          { src with
            totalContributed := src.totalContributed -
              (transfers.map EquityTransfer.amount).sum
            shares := src.shares -
              (transfers.map EquityTransfer.shares).sum
            status :=
              if src.totalContributed -
                  (transfers.map EquityTransfer.amount).sum = 0 ∧
                src.shares - (transfers.map EquityTransfer.shares).sum = 0
              then "inactive" else src.status })
        { id := (updateMember (insertMany s1 recs)
            { src with
              totalContributed := src.totalContributed -
                (transfers.map EquityTransfer.amount).sum
              shares := src.shares -
                (transfers.map EquityTransfer.shares).sum
              status :=
                if src.totalContributed -
                    (transfers.map EquityTransfer.amount).sum = 0 ∧
                  src.shares -
                    (transfers.map EquityTransfer.shares).sum = 0
                then "inactive" else src.status }).nextTxId
          ttype := "Equity-Transfer"
          amount := (transfers.map EquityTransfer.amount).sum
          description := "Equity Migration: Transferred to " ++
            toString transfers.length ++ " recipient(s) [Reference: " ++
            reason ++ "]"
          status := "Success"
          memberId := some fromId
          fundId := none
          projectId := none
          balanceBefore := 0
          balanceAfter := 0
          referenceNumber := some batch }) := by
    simp only [transferEquity, hni, Bool.false_eq_true, if_false, hsrc,
      if_neg (not_lt.mpr hamt), if_neg (not_lt.mpr hsh), hloop]
  refine ⟨_, heqq, ?_, ?_⟩
  · refine ⟨{ src with
      totalContributed := src.totalContributed -
        (transfers.map EquityTransfer.amount).sum
      shares := src.shares - (transfers.map EquityTransfer.shares).sum
      status :=
        if src.totalContributed - (transfers.map EquityTransfer.amount).sum
            = 0 ∧
          src.shares - (transfers.map EquityTransfer.shares).sum = 0 then
          "inactive"
        else src.status }, ?_, by ring, by ring, ?_, ?_⟩
    · rw [findMember_pushTx]
      exact findMember_updateMember_self (insertMany s1 recs) fromId src _
        hsrc1 hkeysrc
    · intro h
      show (if src.totalContributed -
          (transfers.map EquityTransfer.amount).sum = 0 ∧
          src.shares - (transfers.map EquityTransfer.shares).sum = 0 then
          "inactive" else src.status) = "inactive"
      rw [if_pos h]
    · intro h
      show (if src.totalContributed -
          (transfers.map EquityTransfer.amount).sum = 0 ∧
          src.shares - (transfers.map EquityTransfer.shares).sum = 0 then
          "inactive" else src.status) = src.status
      rw [if_neg h]
  · intro hpw t ht m hm
    have h1 := hcr hpw t ht m hm
    rw [findMember_pushTx,
      findMember_updateMember_ne (insertMany s1 recs) t.toMemberId
        { src with
          totalContributed := src.totalContributed -
            (transfers.map EquityTransfer.amount).sum
          shares := src.shares - (transfers.map EquityTransfer.shares).sum
          status :=
            if src.totalContributed -
                (transfers.map EquityTransfer.amount).sum = 0 ∧
              src.shares - (transfers.map EquityTransfer.shares).sum = 0
            then "inactive" else src.status }
        (fun hc => (hnself t ht) ((hkeysrc.symm.trans hc).symm)),
      findMember_insertMany]
    exact h1

/-- Witness for C5: a source member (100 contributed, 10 shares)
transfers 60/6 to member 2 and 40/4 to member 3, fully draining both
holdings: the source ends at 0/0 with status `'inactive'`, and the
recipients are credited exactly their listed amounts and shares. -/
theorem transferEquity_zero_sum_witness :
    ∃ s', transferEquity
      { funds := [],
        members := [{ id := 1, name := "s", status := "active",
                      shares := 10, totalContributed := 100 },
                    { id := 2, name := "a", status := "active",
                      shares := 5, totalContributed := 20 },
                    { id := 3, name := "b", status := "active",
                      shares := 3, totalContributed := 1 }],
        projects := [], transactions := [], nextTxId := 0 }
      1 [{ toMemberId := 2, amount := 60, shares := 6 },
         { toMemberId := 3, amount := 40, shares := 4 }] "exit" "EQT" =
      .ok s' ∧
      (findMember s' 1).map Member.totalContributed = some 0 ∧
      (findMember s' 1).map Member.shares = some 0 ∧
      (findMember s' 1).map Member.status = some "inactive" ∧
      (findMember s' 2).map Member.totalContributed = some 80 ∧
      (findMember s' 2).map Member.shares = some 11 ∧
      (findMember s' 3).map Member.totalContributed = some 41 ∧
      (findMember s' 3).map Member.shares = some 7 := by
  obtain ⟨s', heq, ⟨src', hsrc', h1, h2, h3, h4⟩, hrec⟩ :=
    transferEquity_zero_sum
      { funds := [],
        members := [{ id := 1, name := "s", status := "active",
                      shares := 10, totalContributed := 100 },
                    { id := 2, name := "a", status := "active",
                      shares := 5, totalContributed := 20 },
                    { id := 3, name := "b", status := "active",
                      shares := 3, totalContributed := 1 }],
        projects := [], transactions := [], nextTxId := 0 }
      1 [{ toMemberId := 2, amount := 60, shares := 6 },
         { toMemberId := 3, amount := 40, shares := 4 }] "exit" "EQT"
      { id := 1, name := "s", status := "active", shares := 10,
        totalContributed := 100 }
      (by simp) rfl (by norm_num) (by norm_num) (by decide)
      (by intro t ht
          simp only [List.mem_cons, List.not_mem_nil, or_false] at ht
          rcases ht with rfl | rfl
          · exact ⟨_, rfl, rfl⟩
          · exact ⟨_, rfl, rfl⟩)
  have htc : src'.totalContributed = 0 := by
    simp only [List.map_cons, List.map_nil, List.sum_cons,
      List.sum_nil] at h1
    linarith
  have hshares : src'.shares = 0 := by
    simp only [List.map_cons, List.map_nil, List.sum_cons,
      List.sum_nil] at h2
    linarith
  have hstatus : src'.status = "inactive" := h3 ⟨htc, hshares⟩
  have hpw : ([{ toMemberId := 2, amount := 60, shares := 6 },
      { toMemberId := 3, amount := 40, shares := 4 }] :
      List EquityTransfer).Pairwise
      (fun a b => a.toMemberId ≠ b.toMemberId) := by decide
  have hr2 := hrec hpw { toMemberId := 2, amount := 60, shares := 6 }
    (by simp)
    { id := 2, name := "a", status := "active", shares := 5,
      totalContributed := 20 } rfl
  have hr3 := hrec hpw { toMemberId := 3, amount := 40, shares := 4 }
    (by simp)
    { id := 3, name := "b", status := "active", shares := 3,
      totalContributed := 1 } rfl
  refine ⟨s', heq, ?_, ?_, ?_, ?_, ?_, ?_, ?_⟩
  · rw [hsrc']
    simp [htc]
  · rw [hsrc']
    simp [hshares]
  · rw [hsrc']
    simp [hstatus]
  · rw [hr2]
    norm_num
  · rw [hr2]
    norm_num
  · rw [hr3]
    norm_num
  · rw [hr3]
    norm_num

end InvestWise
